import Mathlib

/-!
Shallow embedding of the analytics engines of the agent-framework-poc
repository (src/services/copilot_usage.py, src/services/segment_adoption.py,
src/services/premium_requests.py), together with theorems settling the
spec claims about them.

Conventions of the embedding:
* pandas `Period("M")` months are `Month := ℕ` (year * 12 + (month index - 1));
* float cells are `ℚ`; a pandas `NaN`/`NA` cell is `Option.none`;
* a raised Python exception is `Except.error` carrying a `PyErr` that names
  the exception class;
* DataFrames are `List` of per-row structures; `groupby` is modelled by
  deduplicating and ascending-sorting the keys (pandas sorts group keys) and
  aggregating the matching rows; `sort_values` is modelled by insertion sort
  over the relevant ordering (only the ordering of values is claim-relevant,
  not tie order, which the source leaves unspecified).
-/

/-- A Python exception, identified by its class name and message. -/
inductive PyErr where
  | configError (cls : String) (msg : String)
  | keyError (key : String)
  deriving DecidableEq, Repr

/-- Calendar month at year-month granularity: `year * 12 + (month - 1)`.
Models `pd.Period(freq="M")`. -/
abbrev Month := ℕ

/-- Parse a digit string to a natural number; `none` if empty or non-digit. -/
def parseNatDigits (s : String) : Option ℕ :=
  if s.isEmpty then none
  else s.foldl
    (fun acc c => acc.bind fun a => if c.isDigit then some (a * 10 + (c.toNat - 48)) else none)
    (some 0)

/-- Models `pd.Period(value, freq="M")` on `YYYY-MM` inputs: four-digit year,
one- or two-digit month in 1..12.  Malformed strings give `none` (the source
wraps the failure into a configuration error at each call site). -/
def parseMonth (s : String) : Option Month :=
  match s.splitOn "-" with
  | [y, m] =>
    if y.length = 4 ∧ (m.length = 1 ∨ m.length = 2) then
      match parseNatDigits y, parseNatDigits m with
      | some yn, some mn => if 1 ≤ mn ∧ mn ≤ 12 then some (yn * 12 + (mn - 1)) else none
      | _, _ => none
    else none
  | _ => none

/-- Models `pd.to_datetime(value, errors="coerce")` truncated to a month
(`.dt.to_period("M")`): accepts `YYYY-MM` and `YYYY-MM-DD`; anything else
coerces to `NaT`, i.e. `none`. -/
def parseDate (s : String) : Option Month :=
  match s.splitOn "-" with
  | [_, _] => parseMonth s
  | [y, m, d] =>
    match parseNatDigits d with
    | some dn => if 1 ≤ dn ∧ dn ≤ 31 ∧ d.length = 2 then parseMonth (y ++ "-" ++ m) else none
    | none => none
  | _ => none

/-- Models `pd.to_numeric(value, errors="coerce")` on decimal strings:
optional sign, integer digits, optional fractional digits.  Unparsable
text coerces to `NaN`, i.e. `none`. -/
def toNumeric (s : String) : Option ℚ :=
  let (sign, body) :=
    if "-".isPrefixOf s then ((-1 : ℚ), s.drop 1)
    else if "+".isPrefixOf s then ((1 : ℚ), s.drop 1)
    else ((1 : ℚ), s)
  match body.splitOn "." with
  | [i] => (parseNatDigits i).map fun n => sign * (n : ℚ)
  | [i, f] =>
    if i.isEmpty ∧ f.isEmpty then none
    else
      match parseNatDigits (if i.isEmpty then "0" else i),
            parseNatDigits (if f.isEmpty then "0" else f) with
      | some ni, some nf =>
        some (sign * ((ni : ℚ) + (nf : ℚ) / ((10 : ℚ) ^ f.length)))
      | _, _ => none
  | _ => none

/-- Python `str.casefold`, modelled for the ASCII data of this repository
as lowercasing. -/
def casefold (s : String) : String := s.toLower

/-- Strip all leading and trailing occurrences of `c` (Python `str.strip(c)`). -/
def stripChar (c : Char) (s : String) : String :=
  String.mk (((s.toList.dropWhile (· = c)).reverse.dropWhile (· = c)).reverse)

/-- Python `int(x)` on a float: truncation toward zero. -/
def ratTrunc (q : ℚ) : ℤ := if 0 ≤ q then q.floor else q.ceil

/-- Round to the nearest integer, ties to even (Python float formatting). -/
def roundHalfEven (q : ℚ) : ℤ :=
  let f := q.floor
  let frac := q - (f : ℚ)
  if frac < 1/2 then f
  else if (1:ℚ)/2 < frac then f + 1
  else if f % 2 = 0 then f else f + 1

/-- Digit grouping for Python's `{:,}` format: commas every three digits. -/
def commaDigits (ds : List Char) : List Char :=
  (ds.reverse.enum.foldl
    (fun acc p => if p.1 ≠ 0 ∧ p.1 % 3 = 0 then p.2 :: ',' :: acc else p.2 :: acc)
    [])

/-- Python `f"{n:,}"` for an integer. -/
def fmtComma (n : ℤ) : String :=
  (if n < 0 then "-" else "") ++ String.mk (commaDigits (toString n.natAbs).toList)

/-- Left-pad a numeral with zeros to the given width. -/
def padZeros (width : ℕ) (n : ℕ) : String :=
  let s := toString n
  String.mk (List.replicate (width - s.length) '0') ++ s

/-- `Period.strftime("%Y-%m")`. -/
def fmtMonth (m : Month) : String :=
  padZeros 4 (m / 12) ++ "-" ++ padZeros 2 (m % 12 + 1)

/-- Python `f"{x:.1f}"` (one decimal, round half to even). -/
def fmtOneDecimal (q : ℚ) : String :=
  let n := roundHalfEven (q * 10)
  (if n < 0 then "-" else "") ++ toString (n.natAbs / 10) ++ "." ++ toString (n.natAbs % 10)

/-- Python `f"{x:,.2f}"` (two decimals, comma-grouped integral part). -/
def fmtTwoDecimalComma (q : ℚ) : String :=
  let n := roundHalfEven (q * 100)
  (if n < 0 then "-" else "") ++ fmtComma (n.natAbs / 100) ++ "." ++ padZeros 2 (n.natAbs % 100)

/-- Python `f"{x:,.0f}"` (comma-grouped, rounded to integer). -/
def fmtZeroDecimalComma (q : ℚ) : String :=
  let n := roundHalfEven q
  (if n < 0 then "-" else "") ++ fmtComma n.natAbs

/-- The `DateRange` dataclass shared (verbatim) by the three analytics
modules: optional inclusive month bounds. -/
structure DateRange where
  start : Option Month
  «end» : Option Month
  deriving DecidableEq, Repr

/-- `DateRange.description`. -/
def DateRange.description (r : DateRange) : String :=
  match r.start, r.«end» with
  | some s, some e =>
    if s = e then fmtMonth s else fmtMonth s ++ " to " ++ fmtMonth e
  | some s, none => "from " ++ fmtMonth s
  | none, some e => "up to " ++ fmtMonth e
  | none, none => "all available months"

/-- `_parse_month`, identical in all three modules up to the exception
class `cls` raised on failure. -/
def parseMonthOrErr (cls : String) (v : String) : Except PyErr Month :=
  match parseMonth v with
  | some m => Except.ok m
  | none =>
    Except.error (PyErr.configError cls
      ("Unable to parse '" ++ v ++ "' as YYYY-MM month value"))

/-- `_normalize_range`, identical in all three modules up to the exception
class: parse the optional bounds, reject `start > end`. -/
def normalizeRange (cls : String) (start_month end_month : Option String) :
    Except PyErr DateRange := do
  let s ← match start_month with
    | some v => (parseMonthOrErr cls v).map some
    | none => pure none
  let e ← match end_month with
    | some v => (parseMonthOrErr cls v).map some
    | none => pure none
  match s, e with
  | some a, some b =>
    if a > b then
      Except.error (PyErr.configError cls "start_month must be earlier than end_month")
    else Except.ok ⟨s, e⟩
  | _, _ => Except.ok ⟨s, e⟩

/-- Membership of a row month in a `DateRange` (the two `df[df["month"] >= ...]`
filters applied by every `_filter`). -/
def DateRange.containsMonth (r : DateRange) (m : Month) : Bool :=
  (match r.start with | some s => decide (s ≤ m) | none => true) &&
  (match r.«end» with | some e => decide (m ≤ e) | none => true)

/-- `segment_adoption._safe_percentage` applied to one pair of cells:
`(num / den * 100).where((den > 0) & num.notna())`. -/
def safePercentage (num den : Option ℚ) : Option ℚ :=
  match num, den with
  | some n, some d => if 0 < d then some (n / d * 100) else none
  | _, _ => none

/-! ## Segment adoption engine (src/services/segment_adoption.py) -/

/-- `segment_adoption._clean_cell` on a string cell: normalize NBSP,
strip whitespace and surrounding quotes, drop thousands separators and
percent signs, collapse dash-only cells, map empty markers to missing. -/
def segCleanCell (value : String) : Option String :=
  let c1 := ((value.replace (String.singleton ' ') " ").trim)
  let c2 := stripChar '"' c1
  let c3 := (c2.replace "," "").replace "%" ""
  let c4 := if ((c3.replace "-" "").trim).isEmpty then c3.replace "-" "" else c3
  let c5 := c4.trim
  if c5 = "" ∨ c5 = "NA" ∨ c5 = "N/A" ∨ c5 = "None" then none else some c5

/-- A loaded row of the segment adoption table (after `_load`): month and
segment are present (rows failing either are dropped), the non-FTE columns
are `fillna(0)`, the remaining numeric columns keep missing cells. -/
structure SegRow where
  month : Month
  segment : String
  active_fte : Option ℚ
  seats_fte : Option ℚ
  active_non_fte : ℚ
  seats_non_fte : ℚ
  billing_adoption_fte : Option ℚ
  billing_adoption_non_fte : Option ℚ
  deriving DecidableEq, Repr

/-- The derived `fte_utilisation_pct` column of a row. -/
def SegRow.fteUtil (r : SegRow) : Option ℚ :=
  safePercentage r.active_fte r.seats_fte

/-- The derived `non_fte_utilisation_pct` column of a row (computed after
the `fillna(0)` of the non-FTE columns, hence from total values). -/
def SegRow.nonFteUtil (r : SegRow) : Option ℚ :=
  safePercentage (some r.active_non_fte) (some r.seats_non_fte)

/-- A raw CSV row of the segment adoption dataset, as read with
`dtype=str, keep_default_na=False` (column renaming is structural here). -/
structure SegRawRow where
  month : String
  segment : String
  active_users_fte : String
  active_users_nonfte : String
  total_seats_fte : String
  total_seats_nonfte : String
  billing_adoption_fte : String
  billing_adoption_nonfte : String
  deriving DecidableEq, Repr

/-- The per-cell numeric coercion of `SegmentAdoptionAnalytics._load`:
`pd.to_numeric(errors="coerce")` on a cleaned cell; unparsable text
becomes missing.  (`_load` additionally applies `fillna(0)` to the two
non-FTE columns; see `segLoadRow`.)  The loader itself never raises on
unparsable data — its only raising path is the structural required-column
check — so an all-unparsable month column yields the empty table. -/
def segCoerceNumeric (cell : String) : Option ℚ :=
  (segCleanCell cell).bind toNumeric

/-- The per-row body of `SegmentAdoptionAnalytics._load` (see `segLoad`):
`none` models a row dropped by `dropna(subset=["month", "segment"])`. -/
def segLoadRow (r : SegRawRow) : Option SegRow :=
  match (segCleanCell r.month).bind parseDate, segCleanCell r.segment with
  | some m, some seg =>
    some { month := m
           segment := seg
           active_fte := segCoerceNumeric r.active_users_fte
           seats_fte := segCoerceNumeric r.total_seats_fte
           active_non_fte := (segCoerceNumeric r.active_users_nonfte).getD 0
           seats_non_fte := (segCoerceNumeric r.total_seats_nonfte).getD 0
           billing_adoption_fte := segCoerceNumeric r.billing_adoption_fte
           billing_adoption_non_fte := segCoerceNumeric r.billing_adoption_nonfte }
  | _, _ => none

def segLoad (raw : List SegRawRow) : Except PyErr (List SegRow) :=
  Except.ok (raw.filterMap segLoadRow)

/-- `SegmentAdoptionAnalytics._filter`: optional case-insensitive segment
match, then the optional month bounds, applied sequentially as in the
source. -/
def segFilter (rows : List SegRow) (segment : Option String) (period : DateRange) :
    List SegRow :=
  let df1 := match segment with
    | some s => rows.filter fun r => casefold r.segment == casefold s
    | none => rows
  let df2 := match period.start with
    | some s => df1.filter fun r => decide (s ≤ r.month)
    | none => df1
  match period.«end» with
  | some e => df2.filter fun r => decide (r.month ≤ e)
  | none => df2

/-- Sum of a float column, skipping missing cells (pandas `sum`). -/
def sumOpt (l : List (Option ℚ)) : ℚ := (l.filterMap id).sum

/-- The group-key list of a pandas `groupby` over months: distinct months
in ascending order. -/
def sortedMonths (rows : List SegRow) : List Month :=
  ((rows.map (·.month)).dedup).insertionSort (· ≤ ·)

/-- One output row of `_group_monthly`. -/
structure SegMonthly where
  month : Month
  active_fte_sum : ℚ
  seats_fte_sum : ℚ
  active_non_fte_sum : ℚ
  seats_non_fte_sum : ℚ
  fte_util : Option ℚ
  non_fte_util : Option ℚ
  deriving DecidableEq, Repr

/-- `SegmentAdoptionAnalytics._group_monthly`: per-month sums of the
active/seat columns; the utilisation columns are recomputed from those
sums with `_safe_percentage` (the per-row means the source first
aggregates are immediately overwritten and therefore dead values). -/
def segGroupMonthly (scopedRows : List SegRow) : List SegMonthly :=
  (sortedMonths scopedRows).map fun m =>
    let sub := scopedRows.filter fun r => r.month == m
    let a := sumOpt (sub.map (·.active_fte))
    let s := sumOpt (sub.map (·.seats_fte))
    let an := (sub.map (·.active_non_fte)).sum
    let sn := (sub.map (·.seats_non_fte)).sum
    { month := m, active_fte_sum := a, seats_fte_sum := s,
      active_non_fte_sum := an, seats_non_fte_sum := sn,
      fte_util := safePercentage (some a) (some s),
      non_fte_util := safePercentage (some an) (some sn) }

/-- The metric-dispatch dictionary shared by `trend` and `leaders`; an
unknown key gives `none`, modelling the `KeyError` of the source's plain
`{...}[metric]` subscript. -/
def segMetricInfo (metric : String) : Option (String × String) :=
  if metric = "fte_adoption" then some ("fte_utilisation_pct", "FTE utilisation")
  else if metric = "non_fte_adoption" then some ("non_fte_utilisation_pct", "Non-FTE utilisation")
  else if metric = "fte_active" then some ("active_fte", "Active FTE")
  else if metric = "non_fte_active" then some ("active_non_fte", "Active Non-FTE")
  else none

/-- Value of the selected metric column in a `_group_monthly` row
(meaningful for the four valid metrics). -/
def segMonthlyValue (metric : String) (g : SegMonthly) : Option ℚ :=
  if metric = "fte_adoption" then g.fte_util
  else if metric = "non_fte_adoption" then g.non_fte_util
  else if metric = "fte_active" then some g.active_fte_sum
  else some g.active_non_fte_sum

/-- pandas `.tail(n)`: the last `n` elements. -/
def takeLast {α : Type} (n : ℕ) (l : List α) : List α := l.drop (l.length - n)

/-- One rendered line of `trend`: missing values render as "no data",
active-count metrics as integers, the others as one-decimal percentages. -/
def segTrendLine (metric : String) (m : Month) (value : Option ℚ) : String :=
  match value with
  | none => "- " ++ fmtMonth m ++ ": no data"
  | some v =>
    if metric = "fte_active" ∨ metric = "non_fte_active" then
      "- " ++ fmtMonth m ++ ": " ++ fmtComma (ratTrunc v)
    else "- " ++ fmtMonth m ++ ": " ++ fmtOneDecimal v ++ "%"

/-- The (month, value) pairs rendered by `trend`: last `limit` monthly
groups, each with its selected metric value. -/
def segTrendEntries (grouped : List SegMonthly) (metric : String) (limit : ℕ) :
    List (Month × Option ℚ) :=
  (takeLast limit grouped).map fun g => (g.month, segMonthlyValue metric g)

/-- `SegmentAdoptionAnalytics.trend`. -/
def segTrend (rows : List SegRow) (segment : Option String) (metric : String)
    (start_month end_month : Option String) (limit : ℕ) : Except PyErr String := do
  let period ← normalizeRange "SegmentAdoptionConfigError" start_month end_month
  let scopedRows := segFilter rows segment period
  if scopedRows.isEmpty then
    return "No segment adoption records match the requested scope."
  let grouped := segGroupMonthly scopedRows
  if grouped.isEmpty then
    return "No segment adoption records match the requested scope."
  match segMetricInfo metric with
  | none => Except.error (PyErr.keyError metric)
  | some info =>
    let scope_label := segment.getD "all segments"
    let header := info.2 ++ " trend for " ++ scope_label ++ " (" ++ period.description ++ "):"
    let lines := (segTrendEntries grouped metric limit).map fun p => segTrendLine metric p.1 p.2
    return String.intercalate "\n" (header :: lines)

/-- Descending order on optional values with missing values last: the order
`sort_values(ascending=False)` applies (pandas default `na_position="last"`,
NaN compares after every number). -/
def optDescLe (a b : Option ℚ) : Prop :=
  match a, b with
  | some x, some y => y ≤ x
  | some _, none => True
  | none, some _ => False
  | none, none => True

instance : DecidableRel optDescLe := fun a b =>
  match a, b with
  | some x, some y => (inferInstance : Decidable (y ≤ x))
  | some _, none => isTrue trivial
  | none, some _ => isFalse (fun h => h)
  | none, none => isTrue trivial

instance : IsTotal (Option ℚ) optDescLe where
  total a b := by
    cases a <;> cases b <;> simp [optDescLe]
    exact le_total _ _

instance : IsTrans (Option ℚ) optDescLe where
  trans a b c hab hbc := by
    cases a <;> cases b <;> cases c <;> simp_all [optDescLe]
    exact le_trans hbc hab

/-- One output row of the per-segment aggregation in `leaders`. -/
structure SegAgg where
  segment : String
  active_fte_sum : ℚ
  seats_fte_sum : ℚ
  active_non_fte_sum : ℚ
  seats_non_fte_sum : ℚ
  fte_util : Option ℚ
  non_fte_util : Option ℚ
  deriving DecidableEq, Repr

/-- Distinct segment names in ascending order (pandas `groupby` key order). -/
def sortedSegments (rows : List SegRow) : List String :=
  ((rows.map (·.segment)).dedup).insertionSort (· ≤ ·)

/-- The `groupby("segment").agg(...)` of `leaders` followed by the two
`_safe_percentage` columns over the aggregated sums. -/
def segAggregate (scopedRows : List SegRow) : List SegAgg :=
  (sortedSegments scopedRows).map fun sg =>
    let sub := scopedRows.filter fun r => r.segment == sg
    let a := sumOpt (sub.map (·.active_fte))
    let s := sumOpt (sub.map (·.seats_fte))
    let an := (sub.map (·.active_non_fte)).sum
    let sn := (sub.map (·.seats_non_fte)).sum
    { segment := sg, active_fte_sum := a, seats_fte_sum := s,
      active_non_fte_sum := an, seats_non_fte_sum := sn,
      fte_util := safePercentage (some a) (some s),
      non_fte_util := safePercentage (some an) (some sn) }

/-- Value of the selected metric column in a `leaders` aggregation row. -/
def segAggValue (metric : String) (g : SegAgg) : Option ℚ :=
  if metric = "fte_adoption" then g.fte_util
  else if metric = "non_fte_adoption" then g.non_fte_util
  else if metric = "fte_active" then some g.active_fte_sum
  else some g.active_non_fte_sum

/-- Ranking relation of `leaders`: descending by the selected metric
column, missing values last. -/
def segRank (metric : String) (a b : SegAgg) : Prop :=
  optDescLe (segAggValue metric a) (segAggValue metric b)

instance (metric : String) : DecidableRel (segRank metric) := fun a b =>
  (inferInstance : Decidable (optDescLe (segAggValue metric a) (segAggValue metric b)))

instance (metric : String) : IsTotal SegAgg (segRank metric) where
  total a b := IsTotal.total (r := optDescLe) _ _

instance (metric : String) : IsTrans SegAgg (segRank metric) where
  trans _ _ _ hab hbc := Trans.trans (r := optDescLe) (s := optDescLe) hab hbc

/-- `aggregated.sort_values(metric_column, ascending=False).head(limit)`. -/
def segLeadersOrdered (scopedRows : List SegRow) (metric : String) (limit : ℕ) :
    List SegAgg :=
  ((segAggregate scopedRows).insertionSort (segRank metric)).take limit

/-- One rendered `leaders` line (only reached for present values; the
source `continue`s over missing ones). -/
def segLeaderLine (metric : String) (g : SegAgg) : String :=
  match segAggValue metric g with
  | none => ""
  | some v =>
    if metric = "fte_active" ∨ metric = "non_fte_active" then
      "- " ++ g.segment ++ ": " ++ fmtComma (ratTrunc v)
    else "- " ++ g.segment ++ ": " ++ fmtOneDecimal v ++ "%"

/-- The aggregation rows whose line `leaders` actually renders: the ordered
head, minus the rows whose metric value is missing. -/
def segLeadersEntries (scopedRows : List SegRow) (metric : String) (limit : ℕ) :
    List SegAgg :=
  (segLeadersOrdered scopedRows metric limit).filter fun g => (segAggValue metric g).isSome

/-- `SegmentAdoptionAnalytics.leaders`. -/
def segLeaders (rows : List SegRow) (month : Option String) (metric : String)
    (limit : ℕ) : Except PyErr String := do
  let sp ← match month with
    | some mv => do
        let m ← parseMonthOrErr "SegmentAdoptionConfigError" mv
        pure (rows.filter (fun r => r.month == m), fmtMonth m)
    | none => pure (rows, "all available months")
  if sp.1.isEmpty then
    return "No segment adoption data available for the requested period."
  match segMetricInfo metric with
  | none => Except.error (PyErr.keyError metric)
  | some info =>
    let ordered := segLeadersOrdered sp.1 metric limit
    if ordered.isEmpty then
      return "No segment adoption data available for the requested period."
    let lines := (segLeadersEntries sp.1 metric limit).map (segLeaderLine metric)
    if lines.isEmpty then
      return "No segment adoption data available for the requested period."
    return String.intercalate "\n"
      (("Top segments by " ++ info.2 ++ " (" ++ sp.2 ++ "):") :: lines)

/-- `_aggregate_int`: drop missing cells, `None` when nothing remains,
else the truncated sum. -/
def segAggregateInt (vals : List (Option ℚ)) : Option ℤ :=
  let s := vals.filterMap id
  if s.isEmpty then none else some (ratTrunc s.sum)

/-- `_aggregate_percentage`: drop missing cells, `None` when nothing
remains, else the mean. -/
def segAggregatePct (vals : List (Option ℚ)) : Option ℚ :=
  let s := vals.filterMap id
  if s.isEmpty then none else some (s.sum / (s.length : ℚ))

/-- Ranking relation of the `summary` peak highlight:
`sort_values("fte_utilisation_pct", ascending=False)` over rows. -/
def segRowRank (a b : SegRow) : Prop := optDescLe a.fteUtil b.fteUtil

instance : DecidableRel segRowRank := fun a b =>
  (inferInstance : Decidable (optDescLe a.fteUtil b.fteUtil))

instance : IsTotal SegRow segRowRank where
  total a b := IsTotal.total (r := optDescLe) _ _

instance : IsTrans SegRow segRowRank where
  trans _ _ _ hab hbc := Trans.trans (r := optDescLe) (s := optDescLe) hab hbc

/-- `scoped.sort_values("fte_utilisation_pct", ascending=False).head(1)`. -/
def segPeakRow (scopedRows : List SegRow) : Option SegRow :=
  (scopedRows.insertionSort segRowRank).head?

/-- How `f"{utilisation:.1f}"` renders the peak value: Python prints a
float NaN (a missing utilisation) as "nan". -/
def pctOrNan : Option ℚ → String
  | some v => fmtOneDecimal v
  | none => "nan"

/-- The `"Highest FTE coverage: ..."` line of `summary`. -/
def segHighlightLine (r : SegRow) : String :=
  "Highest FTE coverage: " ++ r.segment ++ " at " ++ pctOrNan r.fteUtil ++
    "% (" ++ fmtMonth r.month ++ ")"

/-- `SegmentSummary.as_lines` evaluated on the aggregates `summary`
computes: header, optional FTE line, optional (and possibly suppressed)
non-FTE line. -/
def segSummaryLines (scopedRows : List SegRow) (scope_label : String)
    (periodDesc : String) : List String :=
  let fte_active := segAggregateInt (scopedRows.map (·.active_fte))
  let fte_seats := segAggregateInt (scopedRows.map (·.seats_fte))
  let fte_coverage := segAggregatePct (scopedRows.map SegRow.fteUtil)
  let fte_billing := segAggregatePct (scopedRows.map (·.billing_adoption_fte))
  let contractor_active := segAggregateInt (scopedRows.map (fun r => some r.active_non_fte))
  let contractor_seats := segAggregateInt (scopedRows.map (fun r => some r.seats_non_fte))
  let contractor_coverage := segAggregatePct (scopedRows.map SegRow.nonFteUtil)
  let contractor_billing := segAggregatePct (scopedRows.map (·.billing_adoption_non_fte))
  let header := "Segment adoption summary for " ++ scope_label ++ " during " ++ periodDesc ++ ":"
  let fteLine : List String :=
    match fte_active, fte_seats with
    | some a, some s =>
      let coverage := match fte_coverage with
        | some c => " (" ++ fmtOneDecimal c ++ "% utilisation)"
        | none => ""
      let billing := match fte_billing with
        | some b => ", billing programme " ++ fmtOneDecimal b ++ "%"
        | none => ""
      ["- FTE: " ++ fmtComma a ++ " active of " ++ fmtComma s ++ " seats" ++ coverage ++ billing]
    | _, _ => []
  let nonFteLine : List String :=
    match contractor_active, contractor_seats with
    | some a, some s =>
      if s = 0 ∧ a = 0 ∧ contractor_billing = none then []
      else
        let coverage := match contractor_coverage with
          | some c => " (" ++ fmtOneDecimal c ++ "% utilisation)"
          | none => ""
        let billing := match contractor_billing with
          | some b => ", billing programme " ++ fmtOneDecimal b ++ "%"
          | none => ""
        ["- Non-FTE: " ++ fmtComma a ++ " active of " ++ fmtComma s ++ " seats" ++ coverage ++ billing]
    | _, _ => []
  header :: (fteLine ++ nonFteLine)

/-- The full line list `summary` renders (before `"\n".join`). -/
def segSummaryAllLines (scopedRows : List SegRow) (scope_label : String)
    (periodDesc : String) : List String :=
  segSummaryLines scopedRows scope_label periodDesc ++
    (match segPeakRow scopedRows with
     | some r => [segHighlightLine r]
     | none => [])

/-- `SegmentAdoptionAnalytics.summary`. -/
def segSummary (rows : List SegRow) (segment : Option String)
    (start_month end_month : Option String) : Except PyErr String := do
  let period ← normalizeRange "SegmentAdoptionConfigError" start_month end_month
  let scopedRows := segFilter rows segment period
  if scopedRows.isEmpty then
    return "No segment adoption records match the requested scope."
  return String.intercalate "\n"
    (segSummaryAllLines scopedRows (segment.getD "all segments") period.description)

/-! ## Premium requests engine (src/services/premium_requests.py) -/

/-- `premium_requests._clean_cell`: normalize NBSP, strip whitespace and
surrounding quotes, drop thousands separators, map empty markers to
missing (no percent/dash handling, unlike the segment module's variant). -/
def premCleanCell (value : String) : Option String :=
  let c1 := ((value.replace (String.singleton ' ') " ").trim)
  let c2 := stripChar '"' c1
  let c3 := ((c2.replace "," "")).trim
  if c3 = "" ∨ c3 = "NA" ∨ c3 = "N/A" ∨ c3 = "None" then none else some c3

/-- `.str.upper().isin(["TRUE", "T", "1", "YES"])` on a cleaned cell
(a missing cell compares not-in, i.e. `false`). -/
def premTruthy (c : Option String) : Bool :=
  match c with
  | some s => ["TRUE", "T", "1", "YES"].contains s.toUpper
  | none => false

/-- A loaded row of the premium requests table (after `_load`): rows with
unparsable `request_date` are dropped; the four numeric columns are
`fillna(0)`; `segment`/`enterprise` are `fillna`-defaulted strings. -/
structure PremRow where
  month : Month
  enterprise : String
  model : Option String
  quantity : ℚ
  gross_amount : ℚ
  discount_amount : ℚ
  net_amount : ℚ
  mfcgd_id : Option String
  is_employee : Bool
  segment : String
  exceeds_quota : Bool
  deriving DecidableEq, Repr

/-- A raw CSV row of the premium requests dataset (the columns the engine
consumes), as read with `dtype=str, keep_default_na=False`. -/
structure PremRawRow where
  request_date : String
  enterprise : String
  model : String
  quantity : String
  gross_amount : String
  discount_amount : String
  net_amount : String
  mfcgd_id : String
  is_employee : String
  segment : String
  exceeds_quota : String
  deriving DecidableEq, Repr

/-- The per-cell numeric coercion of `PremiumRequestsAnalytics._load`:
`pd.to_numeric(errors="coerce").fillna(0)` on a cleaned cell — an
unparsable cell becomes the substitute value 0, not missing.  As in the
segment loader, the loader never raises on unparsable data (its only
raising path is the structural required-column check), so an
all-unparsable date column yields the empty table. -/
def premCoerceNumeric (cell : String) : ℚ :=
  ((premCleanCell cell).bind toNumeric).getD 0

/-- The per-row body of `PremiumRequestsAnalytics._load` (see `premLoad`):
`none` models a row dropped by `dropna(subset=["request_date"])`. -/
def premLoadRow (r : PremRawRow) : Option PremRow :=
  match (premCleanCell r.request_date).bind parseDate with
  | some m =>
    some { month := m
           enterprise := (premCleanCell r.enterprise).getD "unknown"
           model := premCleanCell r.model
           quantity := premCoerceNumeric r.quantity
           gross_amount := premCoerceNumeric r.gross_amount
           discount_amount := premCoerceNumeric r.discount_amount
           net_amount := premCoerceNumeric r.net_amount
           mfcgd_id := premCleanCell r.mfcgd_id
           is_employee := premTruthy (premCleanCell r.is_employee)
           segment := (premCleanCell r.segment).getD "Unassigned"
           exceeds_quota := premTruthy (premCleanCell r.exceeds_quota) }
  | none => none

def premLoad (raw : List PremRawRow) : Except PyErr (List PremRow) :=
  Except.ok (raw.filterMap premLoadRow)

/-- `PremiumRequestsAnalytics._filter`: optional case-insensitive segment
match, then the `user_type` employee filter (`fte` keeps employees,
`contractor` keeps non-employees, anything else keeps all rows), then the
optional month bounds — applied sequentially as in the source. -/
def premFilter (rows : List PremRow) (segment : Option String) (user_type : String)
    (period : DateRange) : List PremRow :=
  let df1 := match segment with
    | some s => rows.filter fun r => casefold r.segment == casefold s
    | none => rows
  let df2 :=
    if user_type = "fte" then df1.filter (·.is_employee)
    else if user_type = "contractor" then df1.filter (fun r => !r.is_employee)
    else df1
  let df3 := match period.start with
    | some s => df2.filter fun r => decide (s ≤ r.month)
    | none => df2
  match period.«end» with
  | some e => df3.filter fun r => decide (r.month ≤ e)
  | none => df3

/-- `_scope_label`. -/
def premScopeLabel (segment : Option String) (user_type : String) : String :=
  let parts :=
    (match segment with | some s => [s] | none => []) ++
    (if user_type = "fte" then ["FTE"]
     else if user_type = "contractor" then ["contractors"]
     else [])
  if parts.isEmpty then "all users" else String.intercalate " " parts

/-- `_user_type_label`. -/
def premUserTypeLabel (user_type : String) : String :=
  if user_type = "fte" then "FTE"
  else if user_type = "contractor" then "contractors"
  else "all users"

/-- pandas `Series.nunique` over an identifier column: distinct
non-missing values. -/
def nunique (l : List (Option String)) : ℕ := ((l.filterMap id).dedup).length

/-- The aggregates `summary` computes over its filtered rows. -/
structure PremSummaryStats where
  total_requests : ℚ
  unique_users : ℕ
  gross_cost : ℚ
  discount : ℚ
  net_cost : ℚ
  exceeded_quota : ℕ
  deriving DecidableEq, Repr

/-- The sums/counts of `summary` over the scoped rows. -/
def premSummaryStats (sc : List PremRow) : PremSummaryStats :=
  { total_requests := (sc.map (·.quantity)).sum
    unique_users := nunique (sc.map (·.mfcgd_id))
    gross_cost := (sc.map (·.gross_amount)).sum
    discount := (sc.map (·.discount_amount)).sum
    net_cost := (sc.map (·.net_amount)).sum
    exceeded_quota := (sc.filter (·.exceeds_quota)).length }

/-- Descending order on `(key, value)` aggregation pairs by value
(`sort_values(ascending=False)`). -/
def pairRank (a b : String × ℚ) : Prop := b.2 ≤ a.2

instance : DecidableRel pairRank := fun a b => (inferInstance : Decidable (b.2 ≤ a.2))

instance : IsTotal (String × ℚ) pairRank where
  total a b := le_total b.2 a.2

instance : IsTrans (String × ℚ) pairRank where
  trans _ _ _ hab hbc := le_trans hbc hab

/-- Distinct non-missing model names in ascending order (`groupby`
drops missing keys and sorts). -/
def sortedModels (sc : List PremRow) : List String :=
  ((sc.filterMap (·.model)).dedup).insertionSort (· ≤ ·)

/-- `groupby("model")["quantity"].sum()`. -/
def premModelQty (sc : List PremRow) : List (String × ℚ) :=
  (sortedModels sc).map fun md =>
    (md, ((sc.filter fun r => r.model == some md).map (·.quantity)).sum)

/-- The top-3 models line data of `summary`:
`...sort_values(ascending=False).head(3)`. -/
def premTopModelsQty (sc : List PremRow) (n : ℕ) : List (String × ℚ) :=
  ((premModelQty sc).insertionSort pairRank).take n

/-- `PremiumRequestsAnalytics.summary`. -/
def premSummary (rows : List PremRow) (segment : Option String) (user_type : String)
    (start_month end_month : Option String) : Except PyErr String := do
  let period ← normalizeRange "PremiumRequestsConfigError" start_month end_month
  let sc := premFilter rows segment user_type period
  if sc.isEmpty then
    return "No premium request records match the requested scope."
  let st := premSummaryStats sc
  let base :=
    ["Premium request summary for " ++ premScopeLabel segment user_type ++
       " during " ++ period.description ++ ":",
     "- Total requests: " ++ fmtZeroDecimalComma st.total_requests,
     "- Unique users (by Entra ID): " ++ fmtComma (st.unique_users : ℤ),
     "- Gross cost: $" ++ fmtTwoDecimalComma st.gross_cost,
     "- Discount (free quota): $" ++ fmtTwoDecimalComma st.discount,
     "- Net billable cost: $" ++ fmtTwoDecimalComma st.net_cost]
  let withQuota := base ++
    (if 0 < st.exceeded_quota
     then ["- Requests exceeding quota: " ++ fmtComma (st.exceeded_quota : ℤ)]
     else [])
  let top := premTopModelsQty sc 3
  let lines := withQuota ++
    (if top.isEmpty then []
     else ["- Top models: " ++ String.intercalate ", "
             (top.map fun p => p.1 ++ " (" ++ fmtComma (ratTrunc p.2) ++ ")")])
  return String.intercalate "\n" lines

/-- Distinct months of the scoped premium rows, ascending. -/
def premMonths (sc : List PremRow) : List Month :=
  ((sc.map (·.month)).dedup).insertionSort (· ≤ ·)

/-- The monthly series of `trend`: the branch on `metric` picks the
aggregated column — `"requests"` sums `quantity`, `"cost"` sums
`net_amount`, and the `else` branch (reached by `"users"` and by every
other value) counts distinct `mfcgd_id`. -/
def premTrendSeries (sc : List PremRow) (metric : String) : List (Month × ℚ) :=
  (premMonths sc).map fun m =>
    let sub := sc.filter fun r => r.month == m
    if metric = "requests" then (m, (sub.map (·.quantity)).sum)
    else if metric = "cost" then (m, (sub.map (·.net_amount)).sum)
    else (m, (nunique (sub.map (·.mfcgd_id)) : ℚ))

/-- The `metric_name` of the chosen `trend`/`top_segments` branch. -/
def premMetricName (metric : String) : String :=
  if metric = "requests" then "requests"
  else if metric = "cost" then "net cost"
  else "unique users"

/-- The `format_fn` of the chosen `trend`/`top_segments` branch. -/
def premMetricFormat (metric : String) (x : ℚ) : String :=
  if metric = "requests" then fmtComma (ratTrunc x)
  else if metric = "cost" then "$" ++ fmtTwoDecimalComma x
  else fmtComma (ratTrunc x)

/-- `PremiumRequestsAnalytics.trend`. -/
def premTrend (rows : List PremRow) (segment : Option String)
    (user_type metric : String) (start_month end_month : Option String)
    (limit : ℕ) : Except PyErr String := do
  let period ← normalizeRange "PremiumRequestsConfigError" start_month end_month
  let sc := premFilter rows segment user_type period
  if sc.isEmpty then
    return "No premium request records match the requested scope."
  let monthly := takeLast limit (premTrendSeries sc metric)
  let header := "Premium request " ++ premMetricName metric ++ " trend for " ++
    premScopeLabel segment user_type ++ " (" ++ period.description ++ "):"
  return String.intercalate "\n"
    (header :: monthly.map fun p => "- " ++ fmtMonth p.1 ++ ": " ++ premMetricFormat metric p.2)

/-- Distinct segments of the scoped premium rows, ascending. -/
def premSegments (sc : List PremRow) : List String :=
  ((sc.map (·.segment)).dedup).insertionSort (· ≤ ·)

/-- The per-segment aggregation of `top_segments` (same metric branch
shape as `trend`). -/
def premTopSegmentsSeries (sc : List PremRow) (metric : String) : List (String × ℚ) :=
  (premSegments sc).map fun sg =>
    let sub := sc.filter fun r => r.segment == sg
    if metric = "requests" then (sg, (sub.map (·.quantity)).sum)
    else if metric = "cost" then (sg, (sub.map (·.net_amount)).sum)
    else (sg, (nunique (sub.map (·.mfcgd_id)) : ℚ))

/-- `grouped.sort_values(ascending=False).head(limit)` of `top_segments`. -/
def premTopSegmentsEntries (sc : List PremRow) (metric : String) (limit : ℕ) :
    List (String × ℚ) :=
  ((premTopSegmentsSeries sc metric).insertionSort pairRank).take limit

/-- `PremiumRequestsAnalytics.top_segments`. -/
def premTopSegments (rows : List PremRow) (user_type metric : String)
    (start_month end_month : Option String) (limit : ℕ) : Except PyErr String := do
  let period ← normalizeRange "PremiumRequestsConfigError" start_month end_month
  let sc := premFilter rows none user_type period
  if sc.isEmpty then
    return "No premium request records match the requested scope."
  let top := premTopSegmentsEntries sc metric limit
  let header := "Top segments by premium request " ++ premMetricName metric ++
    " for " ++ premUserTypeLabel user_type ++ " (" ++ period.description ++ "):"
  return String.intercalate "\n"
    (header :: top.map fun p => "- " ++ p.1 ++ ": " ++ premMetricFormat metric p.2)

/-- Descending order on `(key, quantity, net)` triples by net amount. -/
def netRank (a b : String × ℚ × ℚ) : Prop := b.2.2 ≤ a.2.2

instance : DecidableRel netRank := fun a b => (inferInstance : Decidable (b.2.2 ≤ a.2.2))

instance : IsTotal (String × ℚ × ℚ) netRank where
  total a b := le_total b.2.2 a.2.2

instance : IsTrans (String × ℚ × ℚ) netRank where
  trans _ _ _ hab hbc := le_trans hbc hab

/-- The `groupby("model").agg({quantity: sum, net_amount: sum})` of
`top_models`, sorted descending by net amount, head `limit`. -/
def premTopModelsEntries (sc : List PremRow) (limit : ℕ) : List (String × ℚ × ℚ) :=
  (((sortedModels sc).map fun md =>
      let sub := sc.filter fun r => r.model == some md
      (md, (sub.map (·.quantity)).sum, (sub.map (·.net_amount)).sum)).insertionSort
    netRank).take limit

/-- `PremiumRequestsAnalytics.top_models`. -/
def premTopModels (rows : List PremRow) (segment : Option String) (user_type : String)
    (start_month end_month : Option String) (limit : ℕ) : Except PyErr String := do
  let period ← normalizeRange "PremiumRequestsConfigError" start_month end_month
  let sc := premFilter rows segment user_type period
  if sc.isEmpty then
    return "No premium request records match the requested scope."
  let header := "Top AI models by cost for " ++ premScopeLabel segment user_type ++
    " (" ++ period.description ++ "):"
  return String.intercalate "\n"
    (header :: (premTopModelsEntries sc limit).map fun p =>
      "- " ++ p.1 ++ ": " ++ fmtComma (ratTrunc p.2.1) ++ " requests, $" ++
        fmtTwoDecimalComma p.2.2 ++ " net cost")

/-- Distinct enterprises of the scoped rows, ascending (`groupby` keys). -/
def premEnterprises (sc : List PremRow) : List String :=
  ((sc.map (·.enterprise)).dedup).insertionSort (· ≤ ·)

/-- The per-enterprise aggregation of `enterprise_breakdown`:
(requests, net cost, distinct users). -/
def premEnterpriseEntries (sc : List PremRow) : List (String × ℚ × ℚ × ℕ) :=
  (premEnterprises sc).map fun e =>
    let sub := sc.filter fun r => r.enterprise == e
    (e, (sub.map (·.quantity)).sum, (sub.map (·.net_amount)).sum,
      nunique (sub.map (·.mfcgd_id)))

/-- One rendered line of `enterprise_breakdown`: the label is
`"EMU (manulife)"` for the value `"manulife"` and
`"Legacy (manulife-financial)"` for every other value. -/
def premEnterpriseLine (e : String) (q c : ℚ) (u : ℕ) : String :=
  "- " ++ (if e = "manulife" then "EMU (manulife)" else "Legacy (manulife-financial)") ++
    ": " ++ fmtComma (ratTrunc q) ++ " requests, $" ++ fmtTwoDecimalComma c ++
    " cost, " ++ fmtComma (u : ℤ) ++ " users"

/-- `PremiumRequestsAnalytics.enterprise_breakdown`. -/
def premEnterpriseBreakdown (rows : List PremRow) (segment : Option String)
    (user_type : String) (start_month end_month : Option String) :
    Except PyErr String := do
  let period ← normalizeRange "PremiumRequestsConfigError" start_month end_month
  let sc := premFilter rows segment user_type period
  if sc.isEmpty then
    return "No premium request records match the requested scope."
  let header := "Enterprise breakdown for " ++ premScopeLabel segment user_type ++
    " (" ++ period.description ++ "):"
  return String.intercalate "\n"
    (header :: (premEnterpriseEntries sc).map fun p =>
      premEnterpriseLine p.1 p.2.1 p.2.2.1 p.2.2.2)

/-! ## Developer usage & interactions engine (src/services/copilot_usage.py) -/

/-- `CopilotUsageAnalytics._coerce_month`: coerce a whole month column with
`to_datetime(errors="coerce")` and raise `AnalyticsConfigError` when every
value failed to parse (pandas `.all()` is vacuously true on an empty
column, so an empty input also raises). -/
def cuCoerceMonth (raw : List String) (src : String) : Except PyErr (List (Option Month)) :=
  let parsed := raw.map parseDate
  if parsed.all Option.isNone then
    Except.error (PyErr.configError "AnalyticsConfigError"
      ("Failed to parse month values in " ++ src ++ ". Ensure YYYY-MM format."))
  else Except.ok parsed

/-- A raw developer-usage CSV row (the columns the engine consumes). -/
structure CuUsageRawRow where
  developer_id : String
  division : Option String
  month : String
  deriving DecidableEq, Repr

/-- A loaded developer-usage row: division defaulted to "Unassigned",
rows with unparsable month dropped. -/
structure CuUsageRow where
  developer_id : String
  division : String
  month : Month
  deriving DecidableEq, Repr

/-- `CopilotUsageAnalytics._load_developer_usage` on the row contents
(the required-column check is structural here): default the division,
coerce the month column via `_coerce_month` (raising when every value
fails), then drop the rows whose month is missing. -/
def cuLoadDeveloperUsage (raw : List CuUsageRawRow) : Except PyErr (List CuUsageRow) := do
  let months ← cuCoerceMonth (raw.map (·.month)) "developer usage"
  return (raw.zip months).filterMap fun p =>
    match p.2 with
    | some m =>
      some { developer_id := p.1.developer_id
             division := p.1.division.getD "Unassigned"
             month := m }
    | none => none

/-- A raw interactions CSV row carrying a `timestamp` column. -/
structure CuInterRawRow where
  developer_id : String
  timestamp : String
  division : Option String
  deriving DecidableEq, Repr

/-- A raw interactions CSV row carrying a `month` column. -/
structure CuInterRawMonthRow where
  developer_id : String
  month : String
  division : Option String
  deriving DecidableEq, Repr

/-- A loaded interaction row (the claim-relevant columns). -/
structure CuInterRow where
  developer_id : String
  division : Option String
  month : Month
  deriving DecidableEq, Repr

/-- The `timestamp` branch of `_load_interactions`: parse timestamps with
`to_datetime(errors="coerce")`, raise when all are invalid, truncate to
months, drop rows whose month is missing. -/
def cuLoadInteractionsTimestamp (raw : List CuInterRawRow) : Except PyErr (List CuInterRow) :=
  let timestamps := raw.map fun r => parseDate r.timestamp
  if timestamps.all Option.isNone then
    Except.error (PyErr.configError "AnalyticsConfigError"
      "Interaction metrics CSV contains invalid timestamp values.")
  else Except.ok <| (raw.zip timestamps).filterMap fun p =>
    match p.2 with
    | some m =>
      some { developer_id := p.1.developer_id, division := p.1.division, month := m }
    | none => none

/-- The `month`-column branch of `_load_interactions`, via `_coerce_month`. -/
def cuLoadInteractionsMonthCol (raw : List CuInterRawMonthRow) :
    Except PyErr (List CuInterRow) := do
  let months ← cuCoerceMonth (raw.map (·.month)) "interaction metrics"
  return (raw.zip months).filterMap fun p =>
    match p.2 with
    | some m =>
      some { developer_id := p.1.developer_id, division := p.1.division, month := m }
    | none => none

/-- `CopilotUsageAnalytics._population_size`: distinct developers, within
the case-insensitively matched division when one is given. -/
def cuPopulationSize (usage : List CuUsageRow) (division : Option String) : ℕ :=
  match division with
  | some d =>
    (((usage.filter fun r => casefold r.division == casefold d).map
        (·.developer_id)).dedup).length
  | none => ((usage.map (·.developer_id)).dedup).length

/-- `CopilotUsageAnalytics._filter_interactions`: optional case-insensitive
division match (a missing division never matches, as pandas `NaN == x` is
false), then the optional month bounds. -/
def cuFilterInteractions (inter : List CuInterRow) (division : Option String)
    (period : DateRange) : List CuInterRow :=
  let df1 := match division with
    | some d => inter.filter fun r =>
        match r.division with
        | some v => casefold v == casefold d
        | none => false
    | none => inter
  let df2 := match period.start with
    | some s => df1.filter fun r => decide (s ≤ r.month)
    | none => df1
  match period.«end» with
  | some e => df2.filter fun r => decide (r.month ≤ e)
  | none => df2

/-- Single-pass characterization of the premium `_filter` scope (segment
match and month bounds, employee test aside): used to state that the
sequential filters select exactly these rows. -/
def premInScope (r : PremRow) (segment : Option String) (period : DateRange) : Bool :=
  (match segment with
   | some s => casefold r.segment == casefold s
   | none => true) && period.containsMonth r.month

/-- The employee test `_filter` applies for a given `user_type`. -/
def premUserTypeTest (user_type : String) (r : PremRow) : Bool :=
  if user_type = "fte" then r.is_employee
  else if user_type = "contractor" then !r.is_employee
  else true

/-- Single-pass characterization of the segment `_filter` scope. -/
def segInScope (r : SegRow) (segment : Option String) (period : DateRange) : Bool :=
  (match segment with
   | some s => casefold r.segment == casefold s
   | none => true) && period.containsMonth r.month

/-- Single-pass characterization of `_filter_interactions` (a missing
division never matches a division filter). -/
def cuInterInScope (r : CuInterRow) (division : Option String) (period : DateRange) : Bool :=
  (match division with
   | some d =>
     match r.division with
     | some v => casefold v == casefold d
     | none => false
   | none => true) && period.containsMonth r.month

/-! ## Concrete example data used by counterexamples and witnesses -/

/-- A loaded segment row with positive seats (utilisation 50%). -/
def exSegRowOk : SegRow :=
  { month := 24306, segment := "Engineering", active_fte := some 5, seats_fte := some 10,
    active_non_fte := 0, seats_non_fte := 0, billing_adoption_fte := none,
    billing_adoption_non_fte := none }

/-- A loaded segment row whose FTE utilisation is undefined (zero seats). -/
def exSegRowZeroSeats : SegRow :=
  { month := 24306, segment := "Engineering", active_fte := some 5, seats_fte := some 0,
    active_non_fte := 0, seats_non_fte := 0, billing_adoption_fte := none,
    billing_adoption_non_fte := none }

/-- A second loaded segment row in the same month as `exSegRowOk`. -/
def exSegRowOk2 : SegRow :=
  { month := 24306, segment := "Wealth", active_fte := some 2, seats_fte := some 4,
    active_non_fte := 0, seats_non_fte := 0, billing_adoption_fte := none,
    billing_adoption_non_fte := none }

/-- A loaded premium row under an enterprise value unknown to the label map. -/
def exPremRowAcme : PremRow :=
  { month := 24306, enterprise := "acme", model := some "gpt-5", quantity := 1,
    gross_amount := 1, discount_amount := 0, net_amount := 1, mfcgd_id := some "u1",
    is_employee := true, segment := "CANADA", exceeds_quota := false }

/-- A raw segment row whose month cell is unparsable. -/
def exSegRawBadMonth : SegRawRow :=
  { month := "not-a-date", segment := "CANADA", active_users_fte := "5",
    active_users_nonfte := "0", total_seats_fte := "10", total_seats_nonfte := "0",
    billing_adoption_fte := "", billing_adoption_nonfte := "" }

/-- A raw premium row whose request date cell is unparsable. -/
def exPremRawBadDate : PremRawRow :=
  { request_date := "not-a-date", enterprise := "manulife", model := "gpt-5",
    quantity := "1", gross_amount := "1", discount_amount := "0", net_amount := "1",
    mfcgd_id := "u1", is_employee := "TRUE", segment := "CANADA", exceeds_quota := "FALSE" }

/-- A raw developer-usage row whose month cell is unparsable. -/
def exCuUsageRawBad : CuUsageRawRow :=
  { developer_id := "d1", division := some "Eng", month := "junk" }

/-- A raw premium row whose quantity cell is unparsable text. -/
def exPremRawQtyAbc : PremRawRow :=
  { request_date := "2025-07-15", enterprise := "manulife", model := "gpt-5",
    quantity := "abc", gross_amount := "1", discount_amount := "0", net_amount := "1",
    mfcgd_id := "u1", is_employee := "TRUE", segment := "CANADA", exceeds_quota := "FALSE" }

/-- The same raw premium row with quantity literally "0". -/
def exPremRawQtyZero : PremRawRow :=
  { exPremRawQtyAbc with quantity := "0" }

/-- The row both `exPremRawQtyAbc` and `exPremRawQtyZero` load to. -/
def exPremLoadedQtyZero : PremRow :=
  { month := 24306, enterprise := "manulife", model := some "gpt-5", quantity := 0,
    gross_amount := 1, discount_amount := 0, net_amount := 1, mfcgd_id := some "u1",
    is_employee := true, segment := "CANADA", exceeds_quota := false }

/-! ## Claim theorems -/

/-- C2 counterexample: on a loaded table whose only enterprise value is
"acme", `enterprise_breakdown` renders the line with the label
"Legacy (manulife-financial)", not with the raw label "acme" the claim
requires for unrecognized values. -/
theorem C2_counterexample :
    premEnterpriseBreakdown [exPremRowAcme] none "all" none none =
      Except.ok ("Enterprise breakdown for all users (all available months):\n" ++
        "- Legacy (manulife-financial): 1 requests, $1.00 cost, 1 users") ∧
    premEnterpriseLine "acme" 1 1 1 ≠
      "- acme: 1 requests, $1.00 cost, 1 users" := by
  refine ⟨by with_unfolding_all rfl, of_decide_eq_true (by with_unfolding_all rfl)⟩

/-- C2 (amended): `enterprise_breakdown` labels the value "manulife" as
"EMU (manulife)" and renders every other enterprise value — recognized or
not — with the fixed label "Legacy (manulife-financial)", identically to
the value "manulife-financial". -/
theorem C2_amended (e : String) (q c : ℚ) (u : ℕ) (h : e ≠ "manulife") :
    premEnterpriseLine e q c u = premEnterpriseLine "manulife-financial" q c u ∧
    premEnterpriseLine "manulife" q c u =
      "- " ++ "EMU (manulife)" ++ ": " ++ fmtComma (ratTrunc q) ++ " requests, $" ++
        fmtTwoDecimalComma c ++ " cost, " ++ fmtComma (u : ℤ) ++ " users" := by
  constructor
  · unfold premEnterpriseLine
    rw [if_neg h, if_neg (of_decide_eq_true (by with_unfolding_all rfl) :
      ¬("manulife-financial" = "manulife"))]
  · unfold premEnterpriseLine
    rw [if_pos rfl]

/-- Witness for C2_amended at the concrete enterprise value "acme". -/
theorem C2_amended_witness :
    premEnterpriseLine "acme" 1 1 1 = premEnterpriseLine "manulife-financial" 1 1 1 ∧
    premEnterpriseLine "manulife" 1 1 1 =
      "- " ++ "EMU (manulife)" ++ ": " ++ fmtComma (ratTrunc 1) ++ " requests, $" ++
        fmtTwoDecimalComma 1 ++ " cost, " ++ fmtComma ((1 : ℕ) : ℤ) ++ " users" :=
  C2_amended "acme" 1 1 1 (of_decide_eq_true (by with_unfolding_all rfl))

/-- C3 counterexample: a segment-adoption (resp. premium-requests) table
whose only temporal cell is unparsable loads successfully to the empty
table instead of raising a configuration error. -/
theorem C3_counterexample :
    segLoad [exSegRawBadMonth] = Except.ok [] ∧
    premLoad [exPremRawBadDate] = Except.ok [] := by
  exact ⟨by with_unfolding_all rfl, by with_unfolding_all rfl⟩

/-- C3 (amended): when every value of the mandatory temporal column fails
to parse, the developer-usage and interactions loaders raise
`AnalyticsConfigError`, but the segment-adoption and premium-requests
loaders silently drop every row and load an empty table. -/
theorem C3_amended :
    (∀ raw : List CuUsageRawRow,
        (((raw.map (·.month)).map parseDate).all Option.isNone) = true →
        cuLoadDeveloperUsage raw = Except.error (PyErr.configError "AnalyticsConfigError"
          "Failed to parse month values in developer usage. Ensure YYYY-MM format.")) ∧
    (∀ raw : List CuInterRawMonthRow,
        (((raw.map (·.month)).map parseDate).all Option.isNone) = true →
        cuLoadInteractionsMonthCol raw = Except.error (PyErr.configError "AnalyticsConfigError"
          "Failed to parse month values in interaction metrics. Ensure YYYY-MM format.")) ∧
    (∀ raw : List CuInterRawRow,
        ((raw.map fun r => parseDate r.timestamp).all Option.isNone) = true →
        cuLoadInteractionsTimestamp raw = Except.error (PyErr.configError "AnalyticsConfigError"
          "Interaction metrics CSV contains invalid timestamp values.")) ∧
    (∀ raw : List SegRawRow,
        ((raw.map fun r => (segCleanCell r.month).bind parseDate).all Option.isNone) = true →
        segLoad raw = Except.ok []) ∧
    (∀ raw : List PremRawRow,
        ((raw.map fun r => (premCleanCell r.request_date).bind parseDate).all Option.isNone) = true →
        premLoad raw = Except.ok []) := by
  refine ⟨?_, ?_, ?_, ?_, ?_⟩
  · intro raw h
    unfold cuLoadDeveloperUsage cuCoerceMonth
    rw [if_pos h]
    rfl
  · intro raw h
    unfold cuLoadInteractionsMonthCol cuCoerceMonth
    rw [if_pos h]
    rfl
  · intro raw h
    unfold cuLoadInteractionsTimestamp
    rw [if_pos h]
  · intro raw h
    unfold segLoad
    congr 1
    rw [List.filterMap_eq_nil_iff]
    intro a ha
    have hm : (segCleanCell a.month).bind parseDate = none := by
      have := List.all_eq_true.mp h _ (List.mem_map_of_mem _ ha)
      exact Option.isNone_iff_eq_none.mp this
    unfold segLoadRow
    rw [hm]
  · intro raw h
    unfold premLoad
    congr 1
    rw [List.filterMap_eq_nil_iff]
    intro a ha
    have hm : (premCleanCell a.request_date).bind parseDate = none := by
      have := List.all_eq_true.mp h _ (List.mem_map_of_mem _ ha)
      exact Option.isNone_iff_eq_none.mp this
    unfold premLoadRow
    rw [hm]

/-- Witness for C3_amended on single-row inputs whose temporal cell is
unparsable. -/
theorem C3_amended_witness :
    cuLoadDeveloperUsage [exCuUsageRawBad] =
      Except.error (PyErr.configError "AnalyticsConfigError"
        "Failed to parse month values in developer usage. Ensure YYYY-MM format.") ∧
    segLoad [exSegRawBadMonth] = Except.ok [] ∧
    premLoad [exPremRawBadDate] = Except.ok [] :=
  ⟨C3_amended.1 [exCuUsageRawBad] (by with_unfolding_all rfl),
   C3_amended.2.2.2.1 [exSegRawBadMonth] (by with_unfolding_all rfl),
   C3_amended.2.2.2.2 [exPremRawBadDate] (by with_unfolding_all rfl)⟩

set_option maxHeartbeats 4000000 in
/-- C5 counterexample: the premium loader's numeric-column coercion does
not turn an unparsable cell into a missing value — `fillna(0)` turns it
into the substitute value 0, the same loaded value a genuine "0" cell
produces (the segment loader's coercion of the same cell stays missing). -/
theorem C5_counterexample :
    toNumeric "abc" = none ∧
    premCoerceNumeric "abc" = 0 ∧
    premCoerceNumeric "0" = 0 ∧
    segCoerceNumeric "abc" = none := by
  refine ⟨by with_unfolding_all rfl, by with_unfolding_all rfl,
    by with_unfolding_all rfl, by with_unfolding_all rfl⟩

/-- C5 (amended): unparsable numeric cells are never fatal in either
loader; in the segment loader the FTE and billing numeric columns become
missing and missing cells are absent from sums, integer aggregates and
means; but the premium loader's four numeric columns — and the segment
loader's two non-FTE columns — replace an unparsable cell by the
substitute value 0 (`fillna(0)`). -/
theorem C5_amended :
    (∀ raw : List PremRawRow, ∃ t, premLoad raw = Except.ok t) ∧
    (∀ raw : List SegRawRow, ∃ t, segLoad raw = Except.ok t) ∧
    (∀ cell : String, (premCleanCell cell).bind toNumeric = none →
        premCoerceNumeric cell = 0) ∧
    (∀ cell : String, segCoerceNumeric cell = (segCleanCell cell).bind toNumeric) ∧
    (∀ (rr : PremRawRow) (pr : PremRow), premLoadRow rr = some pr →
        pr.quantity = premCoerceNumeric rr.quantity) ∧
    (∀ (rr : SegRawRow) (pr : SegRow), segLoadRow rr = some pr →
        pr.active_fte = segCoerceNumeric rr.active_users_fte ∧
        pr.active_non_fte = (segCoerceNumeric rr.active_users_nonfte).getD 0) ∧
    (∀ v : List (Option ℚ), sumOpt (none :: v) = sumOpt v) ∧
    (∀ v : List (Option ℚ), segAggregateInt (none :: v) = segAggregateInt v) ∧
    (∀ v : List (Option ℚ), segAggregatePct (none :: v) = segAggregatePct v) := by
  refine ⟨fun raw => ⟨_, rfl⟩, fun raw => ⟨_, rfl⟩, ?_, fun cell => rfl, ?_, ?_,
    fun v => rfl, fun v => rfl, fun v => rfl⟩
  · intro cell h
    unfold premCoerceNumeric
    rw [h]
    rfl
  · intro rr pr h0
    unfold premLoadRow at h0
    cases hd : (premCleanCell rr.request_date).bind parseDate with
    | none => rw [hd] at h0; cases h0
    | some m =>
      rw [hd] at h0
      cases h0
      rfl
  · intro rr pr h0
    unfold segLoadRow at h0
    cases hd : (segCleanCell rr.month).bind parseDate with
    | none => rw [hd] at h0; cases h0
    | some m =>
      rw [hd] at h0
      cases hs : segCleanCell rr.segment with
      | none => rw [hs] at h0; cases h0
      | some seg =>
        rw [hs] at h0
        cases h0
        exact ⟨rfl, rfl⟩

/-- Witness for C5_amended at the concrete unparsable cell "abc". -/
theorem C5_amended_witness :
    premCoerceNumeric "abc" = 0 :=
  C5_amended.2.2.1 "abc" (by with_unfolding_all rfl)

/-! Helper lemmas about branch selection under out-of-enum arguments. -/

theorem sortedMonths_ne_nil {rows : List SegRow} (h : rows ≠ []) :
    sortedMonths rows ≠ [] := by
  unfold sortedMonths
  intro hc
  have hperm := List.perm_insertionSort (· ≤ ·) ((rows.map (·.month)).dedup)
  rw [hc] at hperm
  have hd : (rows.map (·.month)).dedup = [] := hperm.symm.eq_nil
  rw [List.dedup_eq_nil, List.map_eq_nil_iff] at hd
  exact h hd

theorem segGroupMonthly_ne_nil {rows : List SegRow} (h : rows ≠ []) :
    segGroupMonthly rows ≠ [] := by
  unfold segGroupMonthly
  intro hc
  rw [List.map_eq_nil_iff] at hc
  exact sortedMonths_ne_nil h hc

theorem segMetricInfo_invalid {metric : String}
    (h1 : metric ≠ "fte_adoption") (h2 : metric ≠ "non_fte_adoption")
    (h3 : metric ≠ "fte_active") (h4 : metric ≠ "non_fte_active") :
    segMetricInfo metric = none := by
  unfold segMetricInfo
  rw [if_neg h1, if_neg h2, if_neg h3, if_neg h4]

theorem premMetricName_users {metric : String}
    (h1 : metric ≠ "requests") (h2 : metric ≠ "cost") :
    premMetricName metric = premMetricName "users" := by
  unfold premMetricName
  rw [if_neg h1, if_neg h2, if_neg (by decide : ¬("users" = "requests")),
    if_neg (by decide : ¬("users" = "cost"))]

theorem premMetricFormat_users {metric : String}
    (h1 : metric ≠ "requests") (h2 : metric ≠ "cost") :
    premMetricFormat metric = premMetricFormat "users" := by
  funext x
  unfold premMetricFormat
  rw [if_neg h1, if_neg h2, if_neg (by decide : ¬("users" = "requests")),
    if_neg (by decide : ¬("users" = "cost"))]

theorem premTrendSeries_users {metric : String}
    (h1 : metric ≠ "requests") (h2 : metric ≠ "cost") (sc : List PremRow) :
    premTrendSeries sc metric = premTrendSeries sc "users" := by
  unfold premTrendSeries
  refine List.map_congr_left fun m _ => ?_
  rw [if_neg h1, if_neg h2, if_neg (by decide : ¬("users" = "requests")),
    if_neg (by decide : ¬("users" = "cost"))]

theorem premTopSegmentsSeries_users {metric : String}
    (h1 : metric ≠ "requests") (h2 : metric ≠ "cost") (sc : List PremRow) :
    premTopSegmentsSeries sc metric = premTopSegmentsSeries sc "users" := by
  unfold premTopSegmentsSeries
  refine List.map_congr_left fun sg _ => ?_
  rw [if_neg h1, if_neg h2, if_neg (by decide : ¬("users" = "requests")),
    if_neg (by decide : ¬("users" = "cost"))]

theorem premFilter_all {user_type : String}
    (h1 : user_type ≠ "fte") (h2 : user_type ≠ "contractor")
    (rows : List PremRow) (segment : Option String) (period : DateRange) :
    premFilter rows segment user_type period = premFilter rows segment "all" period := by
  unfold premFilter
  simp only [if_neg h1, if_neg h2, if_neg (by decide : ¬("all" = "fte")),
    if_neg (by decide : ¬("all" = "contractor"))]

theorem premScopeLabel_all {user_type : String}
    (h1 : user_type ≠ "fte") (h2 : user_type ≠ "contractor") (segment : Option String) :
    premScopeLabel segment user_type = premScopeLabel segment "all" := by
  unfold premScopeLabel
  rw [if_neg h1, if_neg h2, if_neg (by decide : ¬("all" = "fte")),
    if_neg (by decide : ¬("all" = "contractor"))]

theorem premUserTypeLabel_all {user_type : String}
    (h1 : user_type ≠ "fte") (h2 : user_type ≠ "contractor") :
    premUserTypeLabel user_type = premUserTypeLabel "all" := by
  unfold premUserTypeLabel
  rw [if_neg h1, if_neg h2, if_neg (by decide : ¬("all" = "fte")),
    if_neg (by decide : ¬("all" = "contractor"))]

theorem segTrend_keyError (rows : List SegRow) (segment : Option String) (metric : String)
    (sm em : Option String) (lim : ℕ) (period : DateRange)
    (hp : normalizeRange "SegmentAdoptionConfigError" sm em = Except.ok period)
    (hne : segFilter rows segment period ≠ [])
    (h1 : metric ≠ "fte_adoption") (h2 : metric ≠ "non_fte_adoption")
    (h3 : metric ≠ "fte_active") (h4 : metric ≠ "non_fte_active") :
    segTrend rows segment metric sm em lim = Except.error (PyErr.keyError metric) := by
  have hE : (segFilter rows segment period).isEmpty = false := by
    rw [← Bool.not_eq_true, List.isEmpty_iff]
    exact hne
  have hG : (segGroupMonthly (segFilter rows segment period)).isEmpty = false := by
    rw [← Bool.not_eq_true, List.isEmpty_iff]
    exact segGroupMonthly_ne_nil hne
  unfold segTrend
  rw [hp]
  simp only [bind, Except.bind, hE, hG, Bool.false_eq_true, if_false,
    segMetricInfo_invalid h1 h2 h3 h4]
  rfl

theorem segLeaders_keyError (rows : List SegRow) (metric : String) (lim : ℕ)
    (hne : rows ≠ [])
    (h1 : metric ≠ "fte_adoption") (h2 : metric ≠ "non_fte_adoption")
    (h3 : metric ≠ "fte_active") (h4 : metric ≠ "non_fte_active") :
    segLeaders rows none metric lim = Except.error (PyErr.keyError metric) := by
  have hE : rows.isEmpty = false := by
    rw [← Bool.not_eq_true, List.isEmpty_iff]
    exact hne
  unfold segLeaders
  simp only [bind, Except.bind, pure, Except.pure, hE, Bool.false_eq_true, if_false,
    segMetricInfo_invalid h1 h2 h3 h4]

theorem premTrend_users (rows : List PremRow) (segment : Option String)
    (user_type metric : String) (sm em : Option String) (lim : ℕ)
    (h1 : metric ≠ "requests") (h2 : metric ≠ "cost") :
    premTrend rows segment user_type metric sm em lim =
      premTrend rows segment user_type "users" sm em lim := by
  unfold premTrend
  cases hnr : normalizeRange "PremiumRequestsConfigError" sm em with
  | error e => rfl
  | ok period =>
    simp only [premTrendSeries_users h1 h2,
      premMetricName_users h1 h2, premMetricFormat_users h1 h2]

theorem premTopSegments_users (rows : List PremRow) (user_type metric : String)
    (sm em : Option String) (lim : ℕ)
    (h1 : metric ≠ "requests") (h2 : metric ≠ "cost") :
    premTopSegments rows user_type metric sm em lim =
      premTopSegments rows user_type "users" sm em lim := by
  unfold premTopSegments
  cases hnr : normalizeRange "PremiumRequestsConfigError" sm em with
  | error e => rfl
  | ok period =>
    simp only [premTopSegmentsEntries, premTopSegmentsSeries_users h1 h2,
      premMetricName_users h1 h2, premMetricFormat_users h1 h2]

theorem premSummary_all (rows : List PremRow) (segment : Option String)
    (user_type : String) (sm em : Option String)
    (h1 : user_type ≠ "fte") (h2 : user_type ≠ "contractor") :
    premSummary rows segment user_type sm em =
      premSummary rows segment "all" sm em := by
  unfold premSummary
  cases hnr : normalizeRange "PremiumRequestsConfigError" sm em with
  | error e => rfl
  | ok period =>
    simp only [premFilter_all h1 h2, premScopeLabel_all h1 h2]

theorem premTrend_all (rows : List PremRow) (segment : Option String)
    (user_type metric : String) (sm em : Option String) (lim : ℕ)
    (h1 : user_type ≠ "fte") (h2 : user_type ≠ "contractor") :
    premTrend rows segment user_type metric sm em lim =
      premTrend rows segment "all" metric sm em lim := by
  unfold premTrend
  cases hnr : normalizeRange "PremiumRequestsConfigError" sm em with
  | error e => rfl
  | ok period =>
    simp only [premFilter_all h1 h2, premScopeLabel_all h1 h2]

theorem premTopSegments_allUsers (rows : List PremRow) (user_type metric : String)
    (sm em : Option String) (lim : ℕ)
    (h1 : user_type ≠ "fte") (h2 : user_type ≠ "contractor") :
    premTopSegments rows user_type metric sm em lim =
      premTopSegments rows "all" metric sm em lim := by
  unfold premTopSegments
  cases hnr : normalizeRange "PremiumRequestsConfigError" sm em with
  | error e => rfl
  | ok period =>
    simp only [premFilter_all h1 h2, premUserTypeLabel_all h1 h2]

/-- C1 counterexample: calling the segment engine's `trend` with an
out-of-enum metric raises a `KeyError` (the dict subscript), instead of
substituting the default `"fte_adoption"` and returning its result. -/
theorem C1_counterexample :
    segTrend [exSegRowOk] none "bogus" none none 6 =
      Except.error (PyErr.keyError "bogus") ∧
    segTrend [exSegRowOk] none "fte_adoption" none none 6 =
      Except.ok "FTE utilisation trend for all segments (all available months):\n- 2025-07: 50.0%" := by
  exact ⟨by with_unfolding_all rfl, by with_unfolding_all rfl⟩

/-- C1 (amended): the engines do not substitute the operation's declared
default for an out-of-enum enum argument.  The segment engine's `trend`
and `leaders` fail with a `KeyError` on an out-of-enum `metric`; the
premium engine's `trend`/`top_segments` treat an out-of-enum `metric` as
the `"users"` branch (not the declared defaults `"requests"`/`"cost"`),
and every premium operation treats an out-of-enum `user_type` as
`"all"` (no filter), which does coincide with `user_type`'s declared
default. -/
theorem C1_amended :
    (∀ (rows : List SegRow) (segment : Option String) (metric : String)
        (sm em : Option String) (lim : ℕ) (period : DateRange),
        normalizeRange "SegmentAdoptionConfigError" sm em = Except.ok period →
        segFilter rows segment period ≠ [] →
        metric ≠ "fte_adoption" → metric ≠ "non_fte_adoption" →
        metric ≠ "fte_active" → metric ≠ "non_fte_active" →
        segTrend rows segment metric sm em lim = Except.error (PyErr.keyError metric)) ∧
    (∀ (rows : List SegRow) (metric : String) (lim : ℕ), rows ≠ [] →
        metric ≠ "fte_adoption" → metric ≠ "non_fte_adoption" →
        metric ≠ "fte_active" → metric ≠ "non_fte_active" →
        segLeaders rows none metric lim = Except.error (PyErr.keyError metric)) ∧
    (∀ (rows : List PremRow) (segment : Option String) (user_type metric : String)
        (sm em : Option String) (lim : ℕ),
        metric ≠ "requests" → metric ≠ "cost" →
        premTrend rows segment user_type metric sm em lim =
          premTrend rows segment user_type "users" sm em lim) ∧
    (∀ (rows : List PremRow) (user_type metric : String)
        (sm em : Option String) (lim : ℕ),
        metric ≠ "requests" → metric ≠ "cost" →
        premTopSegments rows user_type metric sm em lim =
          premTopSegments rows user_type "users" sm em lim) ∧
    (∀ (rows : List PremRow) (segment : Option String) (user_type : String)
        (period : DateRange),
        user_type ≠ "fte" → user_type ≠ "contractor" →
        premFilter rows segment user_type period = premFilter rows segment "all" period) ∧
    (∀ (rows : List PremRow) (segment : Option String) (user_type : String)
        (sm em : Option String),
        user_type ≠ "fte" → user_type ≠ "contractor" →
        premSummary rows segment user_type sm em = premSummary rows segment "all" sm em) ∧
    (∀ (rows : List PremRow) (segment : Option String) (user_type metric : String)
        (sm em : Option String) (lim : ℕ),
        user_type ≠ "fte" → user_type ≠ "contractor" →
        premTrend rows segment user_type metric sm em lim =
          premTrend rows segment "all" metric sm em lim) :=
  ⟨fun rows segment metric sm em lim period hp hne h1 h2 h3 h4 =>
      segTrend_keyError rows segment metric sm em lim period hp hne h1 h2 h3 h4,
   fun rows metric lim hne h1 h2 h3 h4 =>
      segLeaders_keyError rows metric lim hne h1 h2 h3 h4,
   fun rows segment user_type metric sm em lim h1 h2 =>
      premTrend_users rows segment user_type metric sm em lim h1 h2,
   fun rows user_type metric sm em lim h1 h2 =>
      premTopSegments_users rows user_type metric sm em lim h1 h2,
   fun rows segment user_type period h1 h2 =>
      premFilter_all h1 h2 rows segment period,
   fun rows segment user_type sm em h1 h2 =>
      premSummary_all rows segment user_type sm em h1 h2,
   fun rows segment user_type metric sm em lim h1 h2 =>
      premTrend_all rows segment user_type metric sm em lim h1 h2⟩

/-- Witness for C1_amended at concrete out-of-enum arguments. -/
theorem C1_amended_witness :
    segTrend [exSegRowOk] none "bogus2" none none 6 =
      Except.error (PyErr.keyError "bogus2") ∧
    segLeaders [exSegRowOk] none "bogus2" 5 =
      Except.error (PyErr.keyError "bogus2") ∧
    premTrend [exPremRowAcme] none "all" "bogus2" none none 6 =
      premTrend [exPremRowAcme] none "all" "users" none none 6 ∧
    premSummary [exPremRowAcme] none "weird" none none =
      premSummary [exPremRowAcme] none "all" none none :=
  ⟨C1_amended.1 [exSegRowOk] none "bogus2" none none 6 ⟨none, none⟩
      (by with_unfolding_all rfl)
      (by exact of_decide_eq_true (by with_unfolding_all rfl))
      (by decide) (by decide) (by decide) (by decide),
   C1_amended.2.1 [exSegRowOk] "bogus2" 5
      (by exact of_decide_eq_true (by with_unfolding_all rfl))
      (by decide) (by decide) (by decide) (by decide),
   C1_amended.2.2.1 [exPremRowAcme] none "all" "bogus2" none none 6
      (by decide) (by decide),
   C1_amended.2.2.2.2.2.1 [exPremRowAcme] none "weird" none none
      (by decide) (by decide)⟩

/-- C7 (confirmed): `_normalize_range` — shared verbatim by all three
engines up to the exception class, and run first by every operation taking
`start_month`/`end_month` — raises a ConfigurationError when both bounds
parse and start > end, raises when either bound string does not parse as a
YYYY-MM month, and succeeds whenever start <= end (in particular for two
equal bounds); the error propagates out of the engine operations. -/
theorem C7 :
    (∀ (cls s e : String) (a b : Month), parseMonth s = some a → parseMonth e = some b →
        b < a → normalizeRange cls (some s) (some e) =
          Except.error (PyErr.configError cls "start_month must be earlier than end_month")) ∧
    (∀ (cls s e : String) (a b : Month), parseMonth s = some a → parseMonth e = some b →
        a ≤ b → normalizeRange cls (some s) (some e) = Except.ok ⟨some a, some b⟩) ∧
    (∀ (cls s : String) (a : Month), parseMonth s = some a →
        normalizeRange cls (some s) (some s) = Except.ok ⟨some a, some a⟩) ∧
    (∀ (cls s : String) (em : Option String), parseMonth s = none →
        normalizeRange cls (some s) em =
          Except.error (PyErr.configError cls
            ("Unable to parse '" ++ s ++ "' as YYYY-MM month value"))) ∧
    (∀ (cls s e : String) (a : Month), parseMonth s = some a → parseMonth e = none →
        normalizeRange cls (some s) (some e) =
          Except.error (PyErr.configError cls
            ("Unable to parse '" ++ e ++ "' as YYYY-MM month value"))) ∧
    (∀ (cls e : String), parseMonth e = none →
        normalizeRange cls none (some e) =
          Except.error (PyErr.configError cls
            ("Unable to parse '" ++ e ++ "' as YYYY-MM month value"))) ∧
    (∀ (rows : List SegRow) (segment : Option String) (metric s : String)
        (em : Option String) (lim : ℕ), parseMonth s = none →
        segTrend rows segment metric (some s) em lim =
          Except.error (PyErr.configError "SegmentAdoptionConfigError"
            ("Unable to parse '" ++ s ++ "' as YYYY-MM month value"))) ∧
    (∀ (rows : List PremRow) (segment : Option String) (user_type s : String)
        (em : Option String), parseMonth s = none →
        premSummary rows segment user_type (some s) em =
          Except.error (PyErr.configError "PremiumRequestsConfigError"
            ("Unable to parse '" ++ s ++ "' as YYYY-MM month value"))) := by
  refine ⟨?_, ?_, ?_, ?_, ?_, ?_, ?_, ?_⟩
  · intro cls s e a b hs he hba
    simp only [normalizeRange, parseMonthOrErr, hs, he, bind, Except.bind, Except.map]
    rw [if_pos hba]
  · intro cls s e a b hs he hab
    simp only [normalizeRange, parseMonthOrErr, hs, he, bind, Except.bind, Except.map]
    rw [if_neg (not_lt.mpr hab)]
  · intro cls s a hs
    simp only [normalizeRange, parseMonthOrErr, hs, bind, Except.bind, Except.map]
    rw [if_neg (lt_irrefl a)]
  · intro cls s em hs
    simp only [normalizeRange, parseMonthOrErr, hs, bind, Except.bind, Except.map]
  · intro cls s e a hs he
    simp only [normalizeRange, parseMonthOrErr, hs, he, bind, Except.bind, Except.map]
  · intro cls e he
    simp only [normalizeRange, parseMonthOrErr, he, bind, Except.bind, Except.map, pure,
      Except.pure]
  · intro rows segment metric s em lim hs
    have hn : normalizeRange "SegmentAdoptionConfigError" (some s) em =
        Except.error (PyErr.configError "SegmentAdoptionConfigError"
          ("Unable to parse '" ++ s ++ "' as YYYY-MM month value")) := by
      simp only [normalizeRange, parseMonthOrErr, hs, bind, Except.bind, Except.map]
    unfold segTrend
    rw [hn]
    rfl
  · intro rows segment user_type s em hs
    have hn : normalizeRange "PremiumRequestsConfigError" (some s) em =
        Except.error (PyErr.configError "PremiumRequestsConfigError"
          ("Unable to parse '" ++ s ++ "' as YYYY-MM month value")) := by
      simp only [normalizeRange, parseMonthOrErr, hs, bind, Except.bind, Except.map]
    unfold premSummary
    rw [hn]
    rfl

/-- Witness for C7 at concrete month strings. -/
theorem C7_witness :
    normalizeRange "X" (some "2025-08") (some "2025-07") =
      Except.error (PyErr.configError "X" "start_month must be earlier than end_month") ∧
    normalizeRange "X" (some "2025-07") (some "2025-07") =
      Except.ok ⟨some 24306, some 24306⟩ ∧
    normalizeRange "X" (some "2025-xx") none =
      Except.error (PyErr.configError "X"
        ("Unable to parse '" ++ "2025-xx" ++ "' as YYYY-MM month value")) :=
  ⟨C7.1 "X" "2025-08" "2025-07" 24307 24306 (by with_unfolding_all rfl)
      (by with_unfolding_all rfl) (by decide),
   C7.2.2.1 "X" "2025-07" 24306 (by with_unfolding_all rfl),
   C7.2.2.2.1 "X" "2025-xx" none (by with_unfolding_all rfl)⟩

/-! Filter characterization lemmas. -/

theorem premFilter_eq_filter (rows : List PremRow) (segment : Option String)
    (user_type : String) (period : DateRange) :
    premFilter rows segment user_type period =
      rows.filter fun r => premInScope r segment period && premUserTypeTest user_type r := by
  obtain ⟨ps, pe⟩ := period
  unfold premFilter premInScope premUserTypeTest DateRange.containsMonth
  cases segment <;> cases ps <;> cases pe <;>
    by_cases h1 : user_type = "fte" <;>
    by_cases h2 : user_type = "contractor" <;>
    simp [h1, h2, List.filter_filter, Bool.and_comm, Bool.and_left_comm, Bool.and_assoc]

theorem segFilter_eq_filter (rows : List SegRow) (segment : Option String)
    (period : DateRange) :
    segFilter rows segment period = rows.filter fun r => segInScope r segment period := by
  obtain ⟨ps, pe⟩ := period
  unfold segFilter segInScope DateRange.containsMonth
  cases segment <;> cases ps <;> cases pe <;>
    simp [List.filter_filter, Bool.and_comm, Bool.and_left_comm, Bool.and_assoc]

theorem cuFilterInteractions_eq_filter (inter : List CuInterRow)
    (division : Option String) (period : DateRange) :
    cuFilterInteractions inter division period =
      inter.filter fun r => cuInterInScope r division period := by
  obtain ⟨ps, pe⟩ := period
  unfold cuFilterInteractions cuInterInScope DateRange.containsMonth
  cases division <;> cases ps <;> cases pe <;>
    simp [List.filter_filter, Bool.and_comm, Bool.and_left_comm, Bool.and_assoc]

/-- C9 (confirmed): premium `summary` computes its totals over exactly the
scope-matching rows selected by `user_type`: with "fte" the rows with
`is_employee` true, with "contractor" the complement, with "all" no
employee filter; total requests is the sum of `quantity` over those rows
and the user count is the number of distinct `mfcgd_id` values over the
same rows. -/
theorem C9 :
    (∀ (rows : List PremRow) (segment : Option String) (period : DateRange),
        premFilter rows segment "fte" period =
          rows.filter fun r => premInScope r segment period && r.is_employee) ∧
    (∀ (rows : List PremRow) (segment : Option String) (period : DateRange),
        premFilter rows segment "contractor" period =
          rows.filter fun r => premInScope r segment period && !r.is_employee) ∧
    (∀ (rows : List PremRow) (segment : Option String) (period : DateRange),
        premFilter rows segment "all" period =
          rows.filter fun r => premInScope r segment period) ∧
    (∀ (rows : List PremRow) (segment : Option String) (period : DateRange),
        (premSummaryStats (premFilter rows segment "fte" period)).total_requests =
          (((rows.filter fun r => premInScope r segment period && r.is_employee).map
              (·.quantity)).sum) ∧
        (premSummaryStats (premFilter rows segment "fte" period)).unique_users =
          nunique ((rows.filter fun r => premInScope r segment period && r.is_employee).map
            (·.mfcgd_id))) := by
  have hfte : ∀ (rows : List PremRow) (segment : Option String) (period : DateRange),
      premFilter rows segment "fte" period =
        rows.filter fun r => premInScope r segment period && r.is_employee := by
    intro rows segment period
    rw [premFilter_eq_filter]
    exact List.filter_congr fun a _ => by simp [premUserTypeTest]
  have hcon : ∀ (rows : List PremRow) (segment : Option String) (period : DateRange),
      premFilter rows segment "contractor" period =
        rows.filter fun r => premInScope r segment period && !r.is_employee := by
    intro rows segment period
    rw [premFilter_eq_filter]
    exact List.filter_congr fun a _ => by simp [premUserTypeTest]
  have hall : ∀ (rows : List PremRow) (segment : Option String) (period : DateRange),
      premFilter rows segment "all" period =
        rows.filter fun r => premInScope r segment period := by
    intro rows segment period
    rw [premFilter_eq_filter]
    exact List.filter_congr fun a _ => by simp [premUserTypeTest]
  refine ⟨hfte, hcon, hall, ?_⟩
  intro rows segment period
  rw [hfte]
  exact ⟨rfl, rfl⟩

/-- C10 (confirmed): in all engines, a division/segment filter argument
matches a row exactly when the row's value equals the argument under
casefold comparison; consequently casefold-equal arguments (such as
"Global WAM" and "global wam") select the same rows in record scoping and
population counts alike. -/
theorem C10 :
    (∀ (rows : List SegRow) (d : String) (p : DateRange) (r : SegRow),
        r ∈ segFilter rows (some d) p ↔
          r ∈ rows ∧ casefold r.segment = casefold d ∧ p.containsMonth r.month = true) ∧
    (∀ (rows : List PremRow) (d : String) (p : DateRange) (r : PremRow),
        r ∈ premFilter rows (some d) "all" p ↔
          r ∈ rows ∧ casefold r.segment = casefold d ∧ p.containsMonth r.month = true) ∧
    (∀ (inter : List CuInterRow) (d : String) (p : DateRange) (r : CuInterRow),
        r ∈ cuFilterInteractions inter (some d) p ↔
          r ∈ inter ∧ (∃ v, r.division = some v ∧ casefold v = casefold d) ∧
            p.containsMonth r.month = true) ∧
    (∀ d₁ d₂ : String, casefold d₁ = casefold d₂ →
        (∀ (rows : List SegRow) (p : DateRange),
            segFilter rows (some d₁) p = segFilter rows (some d₂) p) ∧
        (∀ (rows : List PremRow) (user_type : String) (p : DateRange),
            premFilter rows (some d₁) user_type p = premFilter rows (some d₂) user_type p) ∧
        (∀ (inter : List CuInterRow) (p : DateRange),
            cuFilterInteractions inter (some d₁) p = cuFilterInteractions inter (some d₂) p) ∧
        (∀ usage : List CuUsageRow,
            cuPopulationSize usage (some d₁) = cuPopulationSize usage (some d₂))) := by
  refine ⟨?_, ?_, ?_, ?_⟩
  · intro rows d p r
    rw [segFilter_eq_filter, List.mem_filter]
    simp [segInScope]
  · intro rows d p r
    rw [premFilter_eq_filter, List.mem_filter]
    simp [premInScope, premUserTypeTest]
  · intro inter d p r
    rw [cuFilterInteractions_eq_filter, List.mem_filter]
    cases hdv : r.division with
    | none => simp [cuInterInScope, hdv]
    | some v => simp [cuInterInScope, hdv]
  · intro d₁ d₂ hd
    refine ⟨?_, ?_, ?_, ?_⟩
    · intro rows p
      rw [segFilter_eq_filter, segFilter_eq_filter]
      exact List.filter_congr fun a _ => by simp [segInScope, hd]
    · intro rows user_type p
      rw [premFilter_eq_filter, premFilter_eq_filter]
      exact List.filter_congr fun a _ => by simp [premInScope, hd]
    · intro inter p
      rw [cuFilterInteractions_eq_filter, cuFilterInteractions_eq_filter]
      refine List.filter_congr fun a _ => ?_
      cases hdv : a.division with
      | none => simp [cuInterInScope, hdv]
      | some v => simp [cuInterInScope, hdv, hd]
    · intro usage
      have heq : (usage.filter fun r => casefold r.division == casefold d₁) =
          usage.filter fun r => casefold r.division == casefold d₂ :=
        List.filter_congr fun a _ => by rw [hd]
      simp only [cuPopulationSize]
      rw [heq]

set_option maxHeartbeats 1600000 in
/-- Witness for C10 at the casefold-equal pair "Global WAM" / "global wam". -/
theorem C10_witness :
    segFilter [exSegRowOk] (some "Global WAM") ⟨none, none⟩ =
      segFilter [exSegRowOk] (some "global wam") ⟨none, none⟩ ∧
    cuPopulationSize [{ developer_id := "d1", division := "Global WAM", month := 24306 }]
        (some "Global WAM") =
      cuPopulationSize [{ developer_id := "d1", division := "Global WAM", month := 24306 }]
        (some "global wam") := by
  have hc : casefold "Global WAM" = casefold "global wam" :=
    Eq.trans (by with_unfolding_all rfl : casefold "Global WAM" = "global wam")
      (by with_unfolding_all rfl : casefold "global wam" = "global wam").symm
  exact ⟨((C10.2.2.2 "Global WAM" "global wam" hc).1) [exSegRowOk] ⟨none, none⟩,
    ((C10.2.2.2 "Global WAM" "global wam" hc).2.2.2)
      [{ developer_id := "d1", division := "Global WAM", month := 24306 }]⟩

/-- C8 (confirmed): every `top_*`/`leaders` ranking renders at most
`limit` entries, ordered non-increasingly by the selected metric; in the
segment `leaders` ranking the rows whose ratio is undefined are excluded
from the rendered entries rather than shown as zero. -/
theorem C8 :
    (∀ (sc : List PremRow) (metric : String) (lim : ℕ),
        (premTopSegmentsEntries sc metric lim).length ≤ lim ∧
        List.Chain' (fun a b => b.2 ≤ a.2) (premTopSegmentsEntries sc metric lim)) ∧
    (∀ (sc : List PremRow) (lim : ℕ),
        (premTopModelsEntries sc lim).length ≤ lim ∧
        List.Chain' (fun a b => b.2.2 ≤ a.2.2) (premTopModelsEntries sc lim)) ∧
    (∀ (sc : List SegRow) (metric : String) (lim : ℕ),
        (segLeadersEntries sc metric lim).length ≤ lim ∧
        (∀ g ∈ segLeadersEntries sc metric lim, (segAggValue metric g).isSome = true) ∧
        List.Chain' (fun a b => optDescLe (segAggValue metric a) (segAggValue metric b))
          (segLeadersEntries sc metric lim)) := by
  refine ⟨?_, ?_, ?_⟩
  · intro sc metric lim
    constructor
    · unfold premTopSegmentsEntries
      rw [List.length_take]
      exact min_le_left _ _
    · unfold premTopSegmentsEntries
      exact (List.Pairwise.sublist (List.take_sublist _ _)
        (List.sorted_insertionSort pairRank _)).chain'
  · intro sc lim
    constructor
    · unfold premTopModelsEntries
      rw [List.length_take]
      exact min_le_left _ _
    · unfold premTopModelsEntries
      exact (List.Pairwise.sublist (List.take_sublist _ _)
        (List.sorted_insertionSort netRank _)).chain'
  · intro sc metric lim
    refine ⟨?_, ?_, ?_⟩
    · unfold segLeadersEntries segLeadersOrdered
      exact le_trans (List.length_filter_le _ _)
        (by rw [List.length_take]; exact min_le_left _ _)
    · intro g hg
      exact (List.mem_filter.mp hg).2
    · unfold segLeadersEntries segLeadersOrdered
      exact (List.Pairwise.sublist
        ((List.filter_sublist _).trans (List.take_sublist _ _))
        (List.sorted_insertionSort (segRank metric) _)).chain'

/-- Witness for C8 at a concrete one-segment table. -/
theorem C8_witness :
    (segAggValue "fte_adoption"
      ⟨"Engineering", 5, 10, 0, 0, some 50, none⟩).isSome = true :=
  (C8.2.2 [exSegRowOk] "fte_adoption" 5).2.1
    ⟨"Engineering", 5, 10, 0, 0, some 50, none⟩
    (of_decide_eq_true (by with_unfolding_all rfl))

/-- C6 (confirmed): the segment `trend` adoption metrics report, for each
listed month, the ratio of monthly-aggregated sums — 100 × (sum of active
over that month's rows) / (sum of seats over that month's rows) — not a
mean of per-row percentages; a month whose aggregated seat sum is not
positive carries a missing value, and a missing value renders as
"no data". -/
theorem C6 :
    (∀ (sc : List SegRow) (lim : ℕ) (m : Month) (v : Option ℚ),
        (m, v) ∈ segTrendEntries (segGroupMonthly sc) "fte_adoption" lim →
        v = if 0 < sumOpt ((sc.filter fun r => r.month == m).map (·.seats_fte))
            then some (100 * sumOpt ((sc.filter fun r => r.month == m).map (·.active_fte)) /
              sumOpt ((sc.filter fun r => r.month == m).map (·.seats_fte)))
            else none) ∧
    (∀ (sc : List SegRow) (lim : ℕ) (m : Month) (v : Option ℚ),
        (m, v) ∈ segTrendEntries (segGroupMonthly sc) "non_fte_adoption" lim →
        v = if 0 < ((sc.filter fun r => r.month == m).map (·.seats_non_fte)).sum
            then some (100 * ((sc.filter fun r => r.month == m).map (·.active_non_fte)).sum /
              ((sc.filter fun r => r.month == m).map (·.seats_non_fte)).sum)
            else none) ∧
    (∀ (metric : String) (m : Month),
        segTrendLine metric m none = "- " ++ fmtMonth m ++ ": no data") := by
  refine ⟨?_, ?_, fun metric m => rfl⟩
  · intro sc lim m v hmem
    unfold segTrendEntries takeLast at hmem
    obtain ⟨g, hg, hEq⟩ := List.mem_map.mp hmem
    have hgG : g ∈ segGroupMonthly sc := List.mem_of_mem_drop hg
    unfold segGroupMonthly at hgG
    obtain ⟨m', _, hg'⟩ := List.mem_map.mp hgG
    subst hg'
    have hm : m = m' := (congrArg Prod.fst hEq).symm
    have hv := congrArg Prod.snd hEq
    simp only at hv
    subst hm
    rw [← hv]
    simp only [segMonthlyValue, safePercentage, eq_self_iff_true, if_true]
    by_cases hS : 0 < sumOpt ((sc.filter fun r => r.month == m).map (·.seats_fte))
    · rw [if_pos hS, if_pos hS, div_mul_eq_mul_div, mul_comm]
    · rw [if_neg hS, if_neg hS]
  · intro sc lim m v hmem
    unfold segTrendEntries takeLast at hmem
    obtain ⟨g, hg, hEq⟩ := List.mem_map.mp hmem
    have hgG : g ∈ segGroupMonthly sc := List.mem_of_mem_drop hg
    unfold segGroupMonthly at hgG
    obtain ⟨m', _, hg'⟩ := List.mem_map.mp hgG
    subst hg'
    have hm : m = m' := (congrArg Prod.fst hEq).symm
    have hv := congrArg Prod.snd hEq
    simp only at hv
    subst hm
    rw [← hv]
    simp only [segMonthlyValue, safePercentage,
      eq_false (by decide : ¬("non_fte_adoption" = "fte_adoption")), if_false,
      eq_self_iff_true, if_true]
    by_cases hS : 0 < ((sc.filter fun r => r.month == m).map (·.seats_non_fte)).sum
    · rw [if_pos hS, if_pos hS, div_mul_eq_mul_div, mul_comm]
    · rw [if_neg hS, if_neg hS]

/-- Witness for C6 on a two-row month (active 5+2, seats 10+4): the trend
value is 100·7/14 = 50%. -/
theorem C6_witness :
    some (50 : ℚ) =
      (if 0 < sumOpt ((([exSegRowOk, exSegRowOk2].filter fun r => r.month == 24306).map
            (·.seats_fte)))
       then some (100 * sumOpt ((([exSegRowOk, exSegRowOk2].filter fun r =>
            r.month == 24306).map (·.active_fte))) /
          sumOpt ((([exSegRowOk, exSegRowOk2].filter fun r => r.month == 24306).map
            (·.seats_fte))))
       else none) :=
  C6.1 [exSegRowOk, exSegRowOk2] 6 24306 (some 50)
    (of_decide_eq_true (by with_unfolding_all rfl))

/-- C4 counterexample: on a table whose single in-scope row has
`seats_fte = 0`, `summary` renders the peak-utilisation highlight by
formatting the undefined (NaN) utilisation, so the rendered output
contains the line "... at nan% ...". -/
theorem C4_counterexample :
    segSummary [exSegRowZeroSeats] none none none =
      Except.ok ("Segment adoption summary for all segments during all available months:\n" ++
        "- FTE: 5 active of 0 seats\n" ++
        "Highest FTE coverage: Engineering at nan% (2025-07)") ∧
    "Highest FTE coverage: Engineering at nan% (2025-07)" ∈
      segSummaryAllLines [exSegRowZeroSeats] "all segments" "all available months" := by
  exact ⟨by with_unfolding_all rfl, of_decide_eq_true (by with_unfolding_all rfl)⟩

/-- C4 (amended): the safe-percentage invariant holds at the row level
(non-positive or missing seats, or a missing numerator, give an undefined
utilisation), undefined months render as "no data" in `trend`, and
undefined ranking rows are skipped in `leaders`; but `summary`'s
peak-utilisation highlight formats the undefined value as "nan" whenever
the peak row's utilisation is undefined — which can only happen when every
in-scope row's utilisation is undefined, since the peak row's utilisation
is defined whenever any in-scope row has a defined one. -/
theorem C4_amended :
    (∀ (num : Option ℚ) (d : ℚ), d ≤ 0 → safePercentage num (some d) = none) ∧
    (∀ num : Option ℚ, safePercentage num none = none) ∧
    (∀ den : Option ℚ, safePercentage none den = none) ∧
    (∀ (r : SegRow) (d : ℚ), r.seats_fte = some d → d ≤ 0 → r.fteUtil = none) ∧
    (∀ (metric : String) (m : Month),
        segTrendLine metric m none = "- " ++ fmtMonth m ++ ": no data") ∧
    (∀ (sc : List SegRow) (metric : String) (lim : ℕ) (g : SegAgg),
        g ∈ segLeadersEntries sc metric lim → (segAggValue metric g).isSome = true) ∧
    (∀ r : SegRow, r.fteUtil = none →
        segHighlightLine r =
          "Highest FTE coverage: " ++ r.segment ++ " at " ++ "nan" ++ "% (" ++
            fmtMonth r.month ++ ")") ∧
    (∀ (sc : List SegRow) (r0 r : SegRow), r0 ∈ sc → (r0.fteUtil).isSome = true →
        segPeakRow sc = some r → (r.fteUtil).isSome = true) := by
  refine ⟨?_, ?_, ?_, ?_, fun metric m => rfl, ?_, ?_, ?_⟩
  · intro num d hd
    cases num with
    | none => rfl
    | some n =>
      simp only [safePercentage]
      rw [if_neg (not_lt.mpr hd)]
  · intro num
    cases num <;> rfl
  · intro den
    rfl
  · intro r d hseats hd
    unfold SegRow.fteUtil
    rw [hseats]
    cases hnum : r.active_fte with
    | none => rfl
    | some n =>
      simp only [safePercentage]
      rw [if_neg (not_lt.mpr hd)]
  · intro sc metric lim g hg
    exact (List.mem_filter.mp hg).2
  · intro r hu
    unfold segHighlightLine
    rw [hu]
    rfl
  · intro sc r0 r hr0 hr0some hpeak
    unfold segPeakRow at hpeak
    cases hsorted : sc.insertionSort segRowRank with
    | nil => rw [hsorted] at hpeak; cases hpeak
    | cons x t =>
      rw [hsorted] at hpeak
      injection hpeak with hxr
      subst hxr
      have hmem : r0 ∈ x :: t := by
        rw [← hsorted, List.mem_insertionSort]
        exact hr0
      have hpair : List.Pairwise segRowRank (x :: t) := by
        rw [← hsorted]
        exact List.sorted_insertionSort segRowRank sc
      by_contra hx
      have hxnone : x.fteUtil = none := by
        cases hv : x.fteUtil with
        | none => rfl
        | some q => rw [hv] at hx; exact absurd rfl hx
      cases List.mem_cons.mp hmem with
      | inl heq =>
        rw [heq, hxnone] at hr0some
        cases hr0some
      | inr ht =>
        have hrel : segRowRank x r0 := (List.pairwise_cons.mp hpair).1 r0 ht
        unfold segRowRank at hrel
        rw [hxnone] at hrel
        cases hv0 : r0.fteUtil with
        | none => rw [hv0] at hr0some; cases hr0some
        | some q =>
          rw [hv0] at hrel
          exact hrel

/-- Witness for C4_amended at concrete undefined-utilisation rows. -/
theorem C4_amended_witness :
    safePercentage (some 5) (some 0) = none ∧
    exSegRowZeroSeats.fteUtil = none ∧
    segHighlightLine exSegRowZeroSeats =
      "Highest FTE coverage: " ++ exSegRowZeroSeats.segment ++ " at " ++ "nan" ++ "% (" ++
        fmtMonth exSegRowZeroSeats.month ++ ")" ∧
    (exSegRowOk.fteUtil).isSome = true :=
  ⟨C4_amended.1 (some 5) 0 le_rfl,
   C4_amended.2.2.2.1 exSegRowZeroSeats 0 (by with_unfolding_all rfl) le_rfl,
   C4_amended.2.2.2.2.2.2.1 exSegRowZeroSeats
     (C4_amended.2.2.2.1 exSegRowZeroSeats 0 (by with_unfolding_all rfl) le_rfl),
   C4_amended.2.2.2.2.2.2.2 [exSegRowOk] exSegRowOk exSegRowOk
     (by with_unfolding_all (exact List.mem_singleton.mpr rfl))
     (by with_unfolding_all rfl)
     (by with_unfolding_all rfl)⟩
